import Mathlib

/-!
Shallow embedding of the RSSI distance-estimation core
(`src/src/distance-estimator.js`): signal models, the 1-D Kalman filter,
the single-radio `DistanceEstimator`, and the `MultiRadioEstimator` fusion
layer.  JavaScript numbers are modelled exactly: values produced by pure
rational arithmetic live in `ℚ`, values involving `Math.pow(10, ·)`,
`Math.sqrt` or `Math.log10` live in `ℝ`.  `Math.round x` is `⌊x + 1/2⌋`,
which coincides with Mathlib's `round`.  Mutation of `this` is modelled by
explicit state passing: each method returns its result together with the
updated state.
-/

namespace DistanceEstimation

/-- Signal model configuration for one radio type (the `SignalModels`
table entries of the source). -/
structure SignalModel where
  name : String
  referenceRssi : ℚ
  referenceDistance : ℚ
  pathLossExponent : ℚ
  minRssi : ℚ
  maxRssi : ℚ
  maxReliableDistance : ℚ
deriving DecidableEq

/-- `SignalModels.BLE` of the source. -/
def SignalModels.BLE : SignalModel :=
  { name := "Bluetooth Low Energy", referenceRssi := -59, referenceDistance := 1,
    pathLossExponent := 2, minRssi := -100, maxRssi := -20, maxReliableDistance := 30 }

/-- `SignalModels.WIFI_2G` of the source. -/
def SignalModels.WIFI_2G : SignalModel :=
  { name := "WiFi 2.4GHz", referenceRssi := -40, referenceDistance := 1,
    pathLossExponent := 27/10, minRssi := -100, maxRssi := -10, maxReliableDistance := 50 }

/-- `SignalModels.WIFI_5G` of the source. -/
def SignalModels.WIFI_5G : SignalModel :=
  { name := "WiFi 5GHz", referenceRssi := -42, referenceDistance := 1,
    pathLossExponent := 3, minRssi := -95, maxRssi := -10, maxReliableDistance := 40 }

/-- `SignalModels.LORA` of the source. -/
def SignalModels.LORA : SignalModel :=
  { name := "LoRa", referenceRssi := -30, referenceDistance := 1,
    pathLossExponent := 23/10, minRssi := -140, maxRssi := -10, maxReliableDistance := 2000 }

/-- Table lookup `SignalModels[radioType] || SignalModels.BLE` used by the
`DistanceEstimator` constructor. -/
def signalModelFor (radioType : String) : SignalModel :=
  if radioType = "BLE" then SignalModels.BLE
  else if radioType = "WIFI_2G" then SignalModels.WIFI_2G
  else if radioType = "WIFI_5G" then SignalModels.WIFI_5G
  else if radioType = "LORA" then SignalModels.LORA
  else SignalModels.BLE

/-- State of the source's `KalmanFilter` class: the constructor arguments
`Q` (process noise) and `R` (measurement noise) are fixed for the life of
the instance, while `estimate`, `errorCovariance` and `sampleCount` evolve. -/
structure KalmanState where
  Q : ℚ
  R : ℚ
  estimate : ℚ
  errorCovariance : ℚ
  sampleCount : ℕ
deriving DecidableEq

/-- The `KalmanFilter` constructor. -/
def KalmanFilter.init (processNoise measurementNoise initialEstimate initialError : ℚ) :
    KalmanState :=
  { Q := processNoise, R := measurementNoise, estimate := initialEstimate,
    errorCovariance := initialError, sampleCount := 0 }

/-- `KalmanFilter.update(measurement)`: one predict + correct step.  Returns
the new estimate (the method's return value) together with the updated
filter state. -/
def KalmanState.update (s : KalmanState) (measurement : ℚ) : ℚ × KalmanState :=
  let predictedEstimate := s.estimate
  let predictedError := s.errorCovariance + s.Q
  let kalmanGain := predictedError / (predictedError + s.R)
  let newEstimate := predictedEstimate + kalmanGain * (measurement - predictedEstimate)
  let newError := (1 - kalmanGain) * predictedError
  (newEstimate,
   { s with estimate := newEstimate, errorCovariance := newError,
            sampleCount := s.sampleCount + 1 })

/-- `KalmanFilter.reset(initialEstimate)`. -/
def KalmanState.reset (s : KalmanState) (initialEstimate : ℚ) : KalmanState :=
  { s with estimate := initialEstimate, errorCovariance := 1, sampleCount := 0 }

/-- `KalmanFilter.getConfidence()`: `max 0 (1 - min (errorCovariance / 10) 1)`
with `maxError = 10`. -/
def KalmanState.getConfidence (s : KalmanState) : ℚ :=
  max 0 (1 - min (s.errorCovariance / 10) 1)

/-- One `{rssi, timestamp}` entry of `rawHistory`. -/
structure Reading where
  rssi : ℚ
  timestamp : ℕ
deriving DecidableEq

/-- State of one `DistanceEstimator` instance. -/
structure EstimatorState where
  model : SignalModel
  kalmanFilter : KalmanState
  rawHistory : List Reading
deriving DecidableEq

/-- `this.maxHistoryLength = 50`. -/
def maxHistoryLength : ℕ := 50

/-- The `DistanceEstimator` constructor with a custom model. -/
def DistanceEstimator.initWithModel (m : SignalModel) : EstimatorState :=
  { model := m, kalmanFilter := KalmanFilter.init (1/8) 4 m.referenceRssi 1, rawHistory := [] }

/-- The `DistanceEstimator` constructor from a radio type string. -/
def DistanceEstimator.init (radioType : String) : EstimatorState :=
  DistanceEstimator.initWithModel (signalModelFor radioType)

/-- The object returned by `estimateDistance`.  The error branch of the
source returns an object without the `model` and `reliable` keys, which is
modelled by `none` in those fields. -/
structure DistanceResult where
  distance : Option ℝ
  confidence : ℝ
  filteredRssi : ℚ
  rawRssi : ℚ
  modelName : Option String
  reliable : Option Prop
  error : Option String

/-- `calculateRssiStability()`: `1 - min (stddev/10) 1` over the raw
history, `0.5` with fewer than 3 samples. -/
noncomputable def calculateRssiStability (s : EstimatorState) : ℝ :=
  if s.rawHistory.length < 3 then 1/2
  else
    let values := s.rawHistory.map Reading.rssi
    let mean : ℚ := values.sum / values.length
    let variance : ℚ := (values.map (fun v => (v - mean) ^ 2)).sum / values.length
    let stdDev : ℝ := Real.sqrt (variance : ℝ)
    1 - min (stdDev / 10) 1

/-- `calculateConfidence(filteredRssi, distance)`: the weighted average of
the four confidence factors, rounded to 2 decimal places.  (The
`filteredRssi` parameter is unused by the source body as well.) -/
noncomputable def calculateConfidence (s : EstimatorState) (filteredRssi : ℚ) (distance : ℝ) :
    ℝ :=
  let filterConfidence : ℚ := s.kalmanFilter.getConfidence
  let sampleConfidence : ℚ := min ((s.rawHistory.length : ℚ) / 10) 1
  let varianceConfidence : ℝ := calculateRssiStability s
  let distanceConfidence : ℝ :=
    if distance ≤ (s.model.maxReliableDistance : ℝ) then
      1 - (distance / (s.model.maxReliableDistance : ℝ)) * (1/2)
    else 1/10
  let confidence : ℝ :=
    (filterConfidence : ℝ) * (1/4) + (sampleConfidence : ℝ) * (1/4) +
    varianceConfidence * (3/10) + distanceConfidence * (1/5)
  ((round (confidence * 100) : ℤ) : ℝ) / 100

/-- `estimateDistance(rssi, useFilter)` (`now` stands for `Date.now()`):
returns the estimate object together with the updated estimator state. -/
noncomputable def estimateDistance (s : EstimatorState) (rssi : ℚ) (useFilter : Bool)
    (now : ℕ) : DistanceResult × EstimatorState :=
  if rssi < s.model.minRssi ∨ s.model.maxRssi < rssi then
    ({ distance := none, confidence := 0, filteredRssi := rssi, rawRssi := rssi,
       modelName := none, reliable := none, error := some ("RSSI out of valid range") }, s)
  else
    let pushed := s.rawHistory ++ [{ rssi := rssi, timestamp := now }]
    let trimmed := if maxHistoryLength < pushed.length then pushed.tail else pushed
    let filterOut := if useFilter then s.kalmanFilter.update rssi else (rssi, s.kalmanFilter)
    let filteredRssi := filterOut.1
    let s2 : EstimatorState := { s with kalmanFilter := filterOut.2, rawHistory := trimmed }
    let exponent : ℚ := (s.model.referenceRssi - filteredRssi) / (10 * s.model.pathLossExponent)
    let distance : ℝ := (s.model.referenceDistance : ℝ) * (10 : ℝ) ^ ((exponent : ℚ) : ℝ)
    let confidence := calculateConfidence s2 filteredRssi distance
    ({ distance := some (((round (distance * 100) : ℤ) : ℝ) / 100),
       confidence := confidence,
       filteredRssi := ((round (filteredRssi * 10) : ℤ) : ℚ) / 10,
       rawRssi := rssi,
       modelName := some s.model.name,
       reliable := some (distance ≤ (s.model.maxReliableDistance : ℝ)),
       error := none }, s2)

/-- The state part of `estimateDistance` alone; identical control flow,
but computable (it never inspects the real-valued distance). -/
def estimateStep (s : EstimatorState) (rssi : ℚ) (useFilter : Bool) (now : ℕ) :
    EstimatorState :=
  if rssi < s.model.minRssi ∨ s.model.maxRssi < rssi then s
  else
    let pushed := s.rawHistory ++ [{ rssi := rssi, timestamp := now }]
    let trimmed := if maxHistoryLength < pushed.length then pushed.tail else pushed
    let filterOut := if useFilter then s.kalmanFilter.update rssi else (rssi, s.kalmanFilter)
    { s with kalmanFilter := filterOut.2, rawHistory := trimmed }

/-- `getStats().samples`: the length of the raw history (`0` when empty). -/
def getStatsSamples (s : EstimatorState) : ℕ := s.rawHistory.length

/-- `getStats().filteredRssi`: the filter estimate rounded to one decimal. -/
def statsFilteredRssi (s : EstimatorState) : ℚ :=
  ((round (s.kalmanFilter.estimate * 10) : ℤ) : ℚ) / 10

/-- `calibrate(knownDistance, rssiSamples)`: returns the success flag and
the updated estimator state. -/
noncomputable def calibrate (s : EstimatorState) (knownDistance : ℚ) (rssiSamples : List ℚ) :
    Bool × EstimatorState :=
  if rssiSamples.length < 5 then (false, s)
  else
    let meanRssi : ℚ := rssiSamples.sum / rssiSamples.length
    let newReference : ℤ :=
      if |knownDistance - 1| < 1/10 then round meanRssi
      else
        round ((meanRssi : ℝ) +
          10 * (s.model.pathLossExponent : ℝ) * Real.logb 10 (knownDistance : ℝ))
    (true,
     { s with model := { s.model with referenceRssi := (newReference : ℚ) },
              kalmanFilter := s.kalmanFilter.reset meanRssi })

/-- Feeding a list of measurements into the filter, one `update` per element. -/
def feedKalman (s : KalmanState) (measurements : List ℚ) : KalmanState :=
  measurements.foldl (fun st m => (st.update m).2) s

/-- The history-bounding discipline of `estimateDistance`: push the new
reading, then `shift` (drop the oldest entry) once the length exceeds the cap. -/
def pushTrim (h : List Reading) (x : Reading) : List Reading :=
  let pushed := h ++ [x]
  if maxHistoryLength < pushed.length then pushed.tail else pushed

/-- The last `n` entries of a list. -/
def lastN {α : Type*} (n : ℕ) (l : List α) : List α := l.drop (l.length - n)

/-- Feeding a list of `(rssi, timestamp)` readings through `estimateDistance`
with the filter enabled. -/
noncomputable def feedEstimator (s : EstimatorState) (readings : List (ℚ × ℕ)) :
    EstimatorState :=
  readings.foldl (fun st p => (estimateDistance st p.1 true p.2).2) s

/-- The error-covariance transition of `update` for the default constructor
constants `Q = 1/8`, `R = 4`; it does not depend on the measurement. -/
def covStep (p : ℚ) : ℚ := (1 - (p + 1/8) / ((p + 1/8) + 4)) * (p + 1/8)

/-- Error covariance after `n` updates of a freshly constructed filter. -/
def covSeq : ℕ → ℚ
  | 0 => 1
  | n + 1 => covStep (covSeq n)

/-- The Kalman gain used at step `n + 1` of a freshly constructed filter. -/
def gainSeq (n : ℕ) : ℚ := (covSeq n + 1/8) / ((covSeq n + 1/8) + 4)

/-- Product of the error-contraction factors `1 - gain` over the first `n`
updates of a freshly constructed filter. -/
def rhoSeq : ℕ → ℚ
  | 0 => 1
  | n + 1 => rhoSeq n * (1 - gainSeq n)

/-- Feeding the same measurement `m` into a freshly constructed filter
(`new KalmanFilter()`: `Q = 0.125`, `R = 4`, initial estimate `-60`, initial
error `1`), `n` times. -/
def kalmanConstantFeed (m : ℚ) : ℕ → KalmanState
  | 0 => KalmanFilter.init (1/8) 4 (-60) 1
  | n + 1 => ((kalmanConstantFeed m n).update m).2

/-- A custom signal model whose reference distance is 2 m, exercising the
difference between "within 0.1 m of `referenceDistance`" and the source's
hard-coded "within 0.1 m of 1.0 m". -/
def calibModelTwoMeters : SignalModel :=
  { name := "custom 2m", referenceRssi := -50, referenceDistance := 2, pathLossExponent := 2,
    minRssi := -100, maxRssi := -20, maxReliableDistance := 30 }

/-- One entry of the fused-estimate breakdown. -/
structure FusedSource where
  radioType : String
  distance : ℝ
  confidence : ℝ
  weight : ℚ

/-- The object returned by `getFusedEstimate`. -/
structure FusedResult where
  distance : Option ℝ
  confidence : ℝ
  sources : ℕ
  breakdown : List FusedSource
  error : Option String

/-- State of a `MultiRadioEstimator`: its estimators in insertion order
(JavaScript object-property order for string keys). -/
structure MultiRadioState where
  estimators : List (String × EstimatorState)

/-- The `fusionWeights` table with the `|| 0.5` fallback. -/
def fusionWeights (radioType : String) : ℚ :=
  if radioType = "BLE" then 1
  else if radioType = "WIFI_2G" then 8/10
  else if radioType = "WIFI_5G" then 7/10
  else if radioType = "LORA" then 5/10
  else 5/10

/-- `addReading(radioType, rssi)`: lazily create the estimator, then delegate
to its `estimateDistance` with the filter enabled. -/
noncomputable def addReading (ms : MultiRadioState) (radioType : String) (rssi : ℚ)
    (now : ℕ) : DistanceResult × MultiRadioState :=
  match ms.estimators.lookup radioType with
  | some es =>
    let out := estimateDistance es rssi true now
    (out.1, ⟨ms.estimators.map (fun kv => if kv.1 = radioType then (kv.1, out.2) else kv)⟩)
  | none =>
    let out := estimateDistance (DistanceEstimator.init radioType) rssi true now
    (out.1, ⟨ms.estimators ++ [(radioType, out.2)]⟩)

/-- The per-estimator body of the `getFusedEstimate` loop: for an estimator
with at least one sample, re-derive an estimate from its current (rounded)
filtered RSSI with `useFilter = false`; produce a breakdown entry unless the
re-derived distance came back null. -/
noncomputable def fusedEntry (now : ℕ) (radioType : String) (es : EstimatorState) :
    Option FusedSource × EstimatorState :=
  if 0 < getStatsSamples es then
    let out := estimateDistance es (statsFilteredRssi es) false now
    match out.1.distance with
    | some d =>
      (some { radioType := radioType, distance := d, confidence := out.1.confidence,
              weight := fusionWeights radioType }, out.2)
    | none => (none, out.2)
  else (none, es)

/-- `getFusedEstimate()`: weighted average over contributing sources, with the
confidence bonus `max(confidence) * sources / 3`; also returns the updated
multi-radio state (the loop's calls to `estimateDistance` mutate the
estimators). -/
noncomputable def getFusedEstimate (ms : MultiRadioState) (now : ℕ) :
    FusedResult × MultiRadioState :=
  let processed := ms.estimators.map (fun kv => (kv.1, fusedEntry now kv.1 kv.2))
  let estimates : List FusedSource := processed.filterMap (fun x => x.2.1)
  let ms2 : MultiRadioState := ⟨processed.map (fun x => (x.1, x.2.2))⟩
  if estimates.length = 0 then
    ({ distance := none, confidence := 0, sources := 0, breakdown := [],
       error := some ("No valid estimates available") }, ms2)
  else
    let totalWeight : ℝ := (estimates.map (fun e => (e.weight : ℝ) * e.confidence)).sum
    let weightedDistance : ℝ :=
      (estimates.map (fun e => e.distance * ((e.weight : ℝ) * e.confidence))).sum
    let maxConfidence : ℝ := (estimates.map FusedSource.confidence).foldl max 0
    let fusedDistance : Option ℝ :=
      if 0 < totalWeight then some (weightedDistance / totalWeight) else none
    ({ distance :=
         match fusedDistance with
         | some v => if v = 0 then none else some (((round (v * 100) : ℤ) : ℝ) / 100)
         | none => none,
       confidence := ((round ((maxConfidence * (estimates.length : ℝ) / 3) * 100) : ℤ) : ℝ) / 100,
       sources := estimates.length,
       breakdown := estimates,
       error := none }, ms2)

/-- Computable mirror of the state part of `addReading`. -/
def addReadingStep (ms : MultiRadioState) (radioType : String) (rssi : ℚ) (now : ℕ) :
    MultiRadioState :=
  match ms.estimators.lookup radioType with
  | some es =>
    ⟨ms.estimators.map (fun kv =>
      if kv.1 = radioType then (kv.1, estimateStep es rssi true now) else kv)⟩
  | none =>
    ⟨ms.estimators ++ [(radioType, estimateStep (DistanceEstimator.init radioType) rssi true now)]⟩

/-- The BLE estimator state after `addReading("BLE", -59)` at time 0 on a fresh
`MultiRadioEstimator`. -/
def c9state1 : EstimatorState := estimateStep (DistanceEstimator.init "BLE") (-59) true 0

/-- The same estimator after one `getFusedEstimate()` call at time 1. -/
noncomputable def c9state2 : EstimatorState := (fusedEntry 1 "BLE" c9state1).2

/-- The BLE estimator after three `addReading("BLE", -59)` calls at time 0. -/
def c4ble : EstimatorState :=
  { model := SignalModels.BLE,
    kalmanFilter := { Q := 1/8, R := 4, estimate := -59, errorCovariance := 48676/64681,
                      sampleCount := 3 },
    rawHistory := [{ rssi := -59, timestamp := 0 }, { rssi := -59, timestamp := 0 },
                   { rssi := -59, timestamp := 0 }] }

/-- The WiFi-2.4GHz estimator after three `addReading("WIFI_2G", -40)` calls. -/
def c4wifi2 : EstimatorState :=
  { model := SignalModels.WIFI_2G,
    kalmanFilter := { Q := 1/8, R := 4, estimate := -40, errorCovariance := 48676/64681,
                      sampleCount := 3 },
    rawHistory := [{ rssi := -40, timestamp := 0 }, { rssi := -40, timestamp := 0 },
                   { rssi := -40, timestamp := 0 }] }

/-- The WiFi-5GHz estimator after three `addReading("WIFI_5G", -42)` calls. -/
def c4wifi5 : EstimatorState :=
  { model := SignalModels.WIFI_5G,
    kalmanFilter := { Q := 1/8, R := 4, estimate := -42, errorCovariance := 48676/64681,
                      sampleCount := 3 },
    rawHistory := [{ rssi := -42, timestamp := 0 }, { rssi := -42, timestamp := 0 },
                   { rssi := -42, timestamp := 0 }] }

/-- The LoRa estimator after three `addReading("LORA", -30)` calls. -/
def c4lora : EstimatorState :=
  { model := SignalModels.LORA,
    kalmanFilter := { Q := 1/8, R := 4, estimate := -30, errorCovariance := 48676/64681,
                      sampleCount := 3 },
    rawHistory := [{ rssi := -30, timestamp := 0 }, { rssi := -30, timestamp := 0 },
                   { rssi := -30, timestamp := 0 }] }

/-- A reachable multi-radio state: each of the four radio types fed its model's
reference RSSI three times through `addReading`. -/
noncomputable def c4chain : MultiRadioState :=
  (addReading (addReading (addReading (addReading (addReading (addReading
   (addReading (addReading (addReading (addReading (addReading (addReading
    ⟨[]⟩ "BLE" (-59) 0).2 "BLE" (-59) 0).2 "BLE" (-59) 0).2
    "WIFI_2G" (-40) 0).2 "WIFI_2G" (-40) 0).2 "WIFI_2G" (-40) 0).2
    "WIFI_5G" (-42) 0).2 "WIFI_5G" (-42) 0).2 "WIFI_5G" (-42) 0).2
    "LORA" (-30) 0).2 "LORA" (-30) 0).2 "LORA" (-30) 0).2

theorem estimateDistance_snd (s : EstimatorState) (rssi : ℚ) (useFilter : Bool) (now : ℕ) :
    (estimateDistance s rssi useFilter now).2 = estimateStep s rssi useFilter now := by
  unfold estimateDistance estimateStep
  split <;> rfl

/-- Evaluation helper: `round x = n` from explicit bounds on `x + 1/2`. -/
theorem round_eq_of_bounds {α : Type*} [LinearOrderedField α] [FloorRing α] (x : α) (n : ℤ)
    (h1 : (n : α) ≤ x + 1/2) (h2 : x + 1/2 < n + 1) : round x = n := by
  rw [round_eq]
  exact Int.floor_eq_iff.mpr ⟨h1, h2⟩

/-- Round is monotone. -/
theorem round_le_round_of_le {α : Type*} [LinearOrderedField α] [FloorRing α] {x y : α}
    (h : x ≤ y) : round x ≤ round y := by
  rw [round_eq, round_eq]
  exact Int.floor_le_floor (by linarith)

theorem feedKalman_cons (s : KalmanState) (m : ℚ) (t : List ℚ) :
    feedKalman s (m :: t) = feedKalman ((s.update m).2) t := rfl

theorem update_Q (s : KalmanState) (m : ℚ) : ((s.update m).2).Q = s.Q := rfl

theorem update_R (s : KalmanState) (m : ℚ) : ((s.update m).2).R = s.R := rfl

theorem update_cov (s : KalmanState) (m : ℚ) :
    ((s.update m).2).errorCovariance =
      (1 - (s.errorCovariance + s.Q) / ((s.errorCovariance + s.Q) + s.R)) *
        (s.errorCovariance + s.Q) := rfl

theorem feedKalman_cov_pointwise :
    ∀ (l1 l2 : List ℚ) (s1 s2 : KalmanState), s1.Q = s2.Q → s1.R = s2.R →
      s1.errorCovariance = s2.errorCovariance → l1.length = l2.length →
      (feedKalman s1 l1).errorCovariance = (feedKalman s2 l2).errorCovariance := by
  intro l1
  induction l1 with
  | nil =>
    intro l2 s1 s2 _ _ hP hl
    cases l2 with
    | nil => simpa [feedKalman] using hP
    | cons b t2 => simp at hl
  | cons a t ih =>
    intro l2 s1 s2 hQ hR hP hl
    cases l2 with
    | nil => simp at hl
    | cons b t2 =>
      rw [feedKalman_cons, feedKalman_cons]
      refine ih t2 _ _ ?_ ?_ ?_ ?_
      · rw [update_Q, update_Q, hQ]
      · rw [update_R, update_R, hR]
      · rw [update_cov, update_cov, hQ, hR, hP]
      · simpa using hl

theorem init_BLE_eq :
    DistanceEstimator.init "BLE" = DistanceEstimator.initWithModel SignalModels.BLE := rfl

/-- C1: for every RSSI strictly outside `[minRssi, maxRssi]`, `estimateDistance`
returns the fixed error object `{distance: null, confidence: 0, filteredRssi: rssi,
rawRssi: rssi, error: "RSSI out of valid range"}` and returns the estimator state
unchanged (history, filter estimate, error covariance and sample count included). -/
theorem estimateDistance_out_of_range_rejects (s : EstimatorState) (rssi : ℚ)
    (useFilter : Bool) (now : ℕ) (h : rssi < s.model.minRssi ∨ s.model.maxRssi < rssi) :
    estimateDistance s rssi useFilter now =
      ({ distance := none, confidence := 0, filteredRssi := rssi, rawRssi := rssi,
         modelName := none, reliable := none, error := some ("RSSI out of valid range") }, s) := by
  unfold estimateDistance
  rw [if_pos h]

theorem estimateDistance_out_of_range_rejects_witness :
    ((-150 : ℚ) < (DistanceEstimator.init "BLE").model.minRssi ∨
      (DistanceEstimator.init "BLE").model.maxRssi < (-150 : ℚ)) ∧
    estimateDistance (DistanceEstimator.init "BLE") (-150) true 0 =
      ({ distance := none, confidence := 0, filteredRssi := -150, rawRssi := -150,
         modelName := none, reliable := none, error := some ("RSSI out of valid range") },
       DistanceEstimator.init "BLE") := by
  have h : (-150 : ℚ) < (DistanceEstimator.init "BLE").model.minRssi ∨
      (DistanceEstimator.init "BLE").model.maxRssi < (-150 : ℚ) := by
    left
    rw [init_BLE_eq]
    norm_num [DistanceEstimator.initWithModel, SignalModels.BLE]
  exact ⟨h, estimateDistance_out_of_range_rejects _ _ _ _ h⟩

/-- C2: one `KalmanFilter.update(m)` computes `predictedError = P + Q`,
`kalmanGain = predictedError / (predictedError + R)`, the new estimate
`E + gain * (m - E)`, the new error covariance `(1 - gain) * predictedError`,
increments the sample count, and returns the new estimate. -/
theorem kalmanFilter_update_spec (s : KalmanState) (m : ℚ) :
    s.update m =
      (s.estimate + ((s.errorCovariance + s.Q) / ((s.errorCovariance + s.Q) + s.R)) *
        (m - s.estimate),
       { Q := s.Q, R := s.R,
         estimate := s.estimate +
           ((s.errorCovariance + s.Q) / ((s.errorCovariance + s.Q) + s.R)) * (m - s.estimate),
         errorCovariance := (1 - (s.errorCovariance + s.Q) / ((s.errorCovariance + s.Q) + s.R)) *
           (s.errorCovariance + s.Q),
         sampleCount := s.sampleCount + 1 }) := rfl

/-- C8: for every in-range RSSI the returned estimate has `error = null` and
carries the remaining `DistanceEstimate` fields, `reliable` and `model` included
(both of which are absent from the out-of-range error object). -/
theorem estimateDistance_in_range_success (s : EstimatorState) (rssi : ℚ) (useFilter : Bool)
    (now : ℕ) (h : ¬(rssi < s.model.minRssi ∨ s.model.maxRssi < rssi)) :
    (estimateDistance s rssi useFilter now).1.error = none ∧
    ((estimateDistance s rssi useFilter now).1.distance).isSome = true ∧
    ((estimateDistance s rssi useFilter now).1.reliable).isSome = true ∧
    (estimateDistance s rssi useFilter now).1.modelName = some s.model.name ∧
    (estimateDistance s rssi useFilter now).1.rawRssi = rssi := by
  unfold estimateDistance
  rw [if_neg h]
  exact ⟨rfl, rfl, rfl, rfl, rfl⟩

theorem estimateDistance_in_range_success_witness :
    ¬((-59 : ℚ) < (DistanceEstimator.init "BLE").model.minRssi ∨
      (DistanceEstimator.init "BLE").model.maxRssi < (-59 : ℚ)) ∧
    ((estimateDistance (DistanceEstimator.init "BLE") (-59) true 0).1.error = none ∧
     ((estimateDistance (DistanceEstimator.init "BLE") (-59) true 0).1.distance).isSome = true ∧
     ((estimateDistance (DistanceEstimator.init "BLE") (-59) true 0).1.reliable).isSome = true ∧
     (estimateDistance (DistanceEstimator.init "BLE") (-59) true 0).1.modelName =
       some (DistanceEstimator.init "BLE").model.name ∧
     (estimateDistance (DistanceEstimator.init "BLE") (-59) true 0).1.rawRssi = -59) := by
  have h : ¬((-59 : ℚ) < (DistanceEstimator.init "BLE").model.minRssi ∨
      (DistanceEstimator.init "BLE").model.maxRssi < (-59 : ℚ)) := by
    rw [init_BLE_eq]
    norm_num [DistanceEstimator.initWithModel, SignalModels.BLE]
  exact ⟨h, estimateDistance_in_range_success _ _ _ _ h⟩

/-- C10: the error covariance after feeding a measurement list — and hence
`getConfidence()` — depends only on the number of measurements and on the
constants `Q`, `R` and the initial error covariance, never on the measured
values: equal-length measurement lists fed into filters with equal constants and
equal initial covariance produce equal covariances and equal confidences. -/
theorem kalman_cov_measurement_independent (l1 l2 : List ℚ) (s1 s2 : KalmanState)
    (hQ : s1.Q = s2.Q) (hR : s1.R = s2.R) (hP : s1.errorCovariance = s2.errorCovariance)
    (hl : l1.length = l2.length) :
    (feedKalman s1 l1).errorCovariance = (feedKalman s2 l2).errorCovariance ∧
    (feedKalman s1 l1).getConfidence = (feedKalman s2 l2).getConfidence := by
  have hcov := feedKalman_cov_pointwise l1 l2 s1 s2 hQ hR hP hl
  refine ⟨hcov, ?_⟩
  unfold KalmanState.getConfidence
  rw [hcov]

theorem kalman_cov_measurement_independent_witness :
    (KalmanFilter.init (1/8) 4 (-60) 1).Q = (KalmanFilter.init (1/8) 4 (-60) 1).Q ∧
    (KalmanFilter.init (1/8) 4 (-60) 1).R = (KalmanFilter.init (1/8) 4 (-60) 1).R ∧
    (KalmanFilter.init (1/8) 4 (-60) 1).errorCovariance =
      (KalmanFilter.init (1/8) 4 (-60) 1).errorCovariance ∧
    ([(-30 : ℚ), -90] : List ℚ).length = ([(-55 : ℚ), -61] : List ℚ).length ∧
    ((feedKalman (KalmanFilter.init (1/8) 4 (-60) 1) [-30, -90]).errorCovariance =
       (feedKalman (KalmanFilter.init (1/8) 4 (-60) 1) [-55, -61]).errorCovariance ∧
     (feedKalman (KalmanFilter.init (1/8) 4 (-60) 1) [-30, -90]).getConfidence =
       (feedKalman (KalmanFilter.init (1/8) 4 (-60) 1) [-55, -61]).getConfidence) :=
  ⟨rfl, rfl, rfl, rfl,
   kalman_cov_measurement_independent [-30, -90] [-55, -61] _ _ rfl rfl rfl rfl⟩

theorem length_lastN {α : Type*} (n : ℕ) (l : List α) :
    (lastN n l).length = min n l.length := by
  simp only [lastN, List.length_drop]
  omega

theorem lastN_of_le {α : Type*} {n : ℕ} {l : List α} (h : l.length ≤ n) : lastN n l = l := by
  simp [lastN, Nat.sub_eq_zero_of_le h]

theorem pushTrim_eq_lastN (h : List Reading) (x : Reading) (hh : h.length ≤ maxHistoryLength) :
    pushTrim h x = lastN maxHistoryLength (h ++ [x]) := by
  unfold pushTrim lastN
  by_cases hc : maxHistoryLength < (h ++ [x]).length
  · rw [if_pos hc]
    have hlen : (h ++ [x]).length - maxHistoryLength = 1 := by
      simp only [List.length_append, List.length_singleton] at hc ⊢
      omega
    rw [hlen, List.drop_one]
  · rw [if_neg hc]
    have hlen : (h ++ [x]).length - maxHistoryLength = 0 := by omega
    rw [hlen, List.drop_zero]

theorem lastN_append_lastN {α : Type*} (n : ℕ) (A B : List α) :
    lastN n (lastN n A ++ B) = lastN n (A ++ B) := by
  rcases le_or_lt A.length n with hA | hA
  · rw [lastN_of_le hA]
  · unfold lastN
    simp only [List.length_append, List.length_drop]
    rw [List.drop_append_eq_append_drop, List.drop_append_eq_append_drop, List.drop_drop]
    have e1 : A.length - n + (A.length - (A.length - n) + B.length - n) =
        A.length + B.length - n := by omega
    have e2 : A.length - (A.length - n) + B.length - n - (A.drop (A.length - n)).length =
        A.length + B.length - n - A.length := by
      simp only [List.length_drop]
      omega
    rw [e1, e2]

theorem estimateStep_model (s : EstimatorState) (rssi : ℚ) (useFilter : Bool) (now : ℕ) :
    (estimateStep s rssi useFilter now).model = s.model := by
  unfold estimateStep
  split <;> rfl

theorem estimateStep_rawHistory_in_range (s : EstimatorState) (rssi : ℚ) (useFilter : Bool)
    (now : ℕ) (h : ¬(rssi < s.model.minRssi ∨ s.model.maxRssi < rssi)) :
    (estimateStep s rssi useFilter now).rawHistory =
      pushTrim s.rawHistory { rssi := rssi, timestamp := now } := by
  unfold estimateStep pushTrim
  rw [if_neg h]

theorem feedEstimator_cons (s : EstimatorState) (p : ℚ × ℕ) (L : List (ℚ × ℕ)) :
    feedEstimator s (p :: L) = feedEstimator (estimateDistance s p.1 true p.2).2 L := rfl

theorem feedEstimator_rawHistory :
    ∀ (L : List (ℚ × ℕ)) (s : EstimatorState),
      (∀ p ∈ L, ¬(p.1 < s.model.minRssi ∨ s.model.maxRssi < p.1)) →
      s.rawHistory.length ≤ maxHistoryLength →
      (feedEstimator s L).rawHistory =
        lastN maxHistoryLength
          (s.rawHistory ++ L.map (fun p => { rssi := p.1, timestamp := p.2 })) ∧
      (feedEstimator s L).model = s.model := by
  intro L
  induction L with
  | nil =>
    intro s _ hlen
    exact ⟨by simp [feedEstimator, lastN_of_le hlen], rfl⟩
  | cons p L ih =>
    intro s hin hlen
    rw [feedEstimator_cons, estimateDistance_snd]
    have hp := hin p (List.mem_cons_self p L)
    have hmodel := estimateStep_model s p.1 true p.2
    have hhist := estimateStep_rawHistory_in_range s p.1 true p.2 hp
    have hlen2 : (estimateStep s p.1 true p.2).rawHistory.length ≤ maxHistoryLength := by
      rw [hhist, pushTrim_eq_lastN _ _ hlen, length_lastN]
      omega
    obtain ⟨ih1, ih2⟩ := ih (estimateStep s p.1 true p.2)
      (by
        rw [hmodel]
        intro q hq
        exact hin q (List.mem_cons_of_mem p hq))
      hlen2
    refine ⟨?_, by rw [ih2, hmodel]⟩
    rw [ih1, hhist, pushTrim_eq_lastN _ _ hlen, lastN_append_lastN]
    rw [List.map_cons, List.append_assoc]
    rfl

/-- C5: the reading history never exceeds 50 entries; at the cap, eviction is
FIFO (the oldest entry is dropped and the new reading appended at the back); and
feeding 60 in-range samples into a fresh BLE estimator leaves
`getStats().samples = 50` with the history holding exactly the last 50 readings
in order. -/
theorem history_bounded_fifo :
    (∀ (s : EstimatorState) (rssi : ℚ) (useFilter : Bool) (now : ℕ),
       getStatsSamples s ≤ 50 →
       getStatsSamples (estimateDistance s rssi useFilter now).2 ≤ 50) ∧
    (∀ (s : EstimatorState) (rssi : ℚ) (useFilter : Bool) (now : ℕ),
       ¬(rssi < s.model.minRssi ∨ s.model.maxRssi < rssi) →
       getStatsSamples s = 50 →
       (estimateDistance s rssi useFilter now).2.rawHistory =
         s.rawHistory.tail ++ [{ rssi := rssi, timestamp := now }]) ∧
    (∀ (L : List (ℚ × ℕ)),
       L.length = 60 →
       (∀ p ∈ L, ¬(p.1 < SignalModels.BLE.minRssi ∨ SignalModels.BLE.maxRssi < p.1)) →
       getStatsSamples (feedEstimator (DistanceEstimator.init "BLE") L) = 50 ∧
       (feedEstimator (DistanceEstimator.init "BLE") L).rawHistory =
         (L.drop 10).map (fun p => { rssi := p.1, timestamp := p.2 })) := by
  refine ⟨?_, ?_, ?_⟩
  · intro s rssi useFilter now hlen
    rw [getStatsSamples] at hlen ⊢
    rw [estimateDistance_snd]
    unfold estimateStep
    split
    · exact hlen
    · show (pushTrim s.rawHistory { rssi := rssi, timestamp := now }).length ≤ 50
      rw [pushTrim_eq_lastN _ _ (by rw [maxHistoryLength]; exact hlen), length_lastN]
      simp only [maxHistoryLength]
      omega
  · intro s rssi useFilter now h hlen
    rw [getStatsSamples] at hlen
    rw [estimateDistance_snd, estimateStep_rawHistory_in_range s rssi useFilter now h]
    unfold pushTrim
    rw [if_pos (by
      simp only [maxHistoryLength, List.length_append, List.length_singleton]
      omega)]
    cases hh : s.rawHistory with
    | nil => rw [hh] at hlen; simp at hlen
    | cons a t => simp
  · intro L hL hin
    have hmodel : (DistanceEstimator.init "BLE").model = SignalModels.BLE := rfl
    have hraw : (DistanceEstimator.init "BLE").rawHistory = ([] : List Reading) := rfl
    obtain ⟨h1, _⟩ := feedEstimator_rawHistory L (DistanceEstimator.init "BLE")
      (by rw [hmodel]; exact hin) (by rw [hraw]; simp)
    rw [hraw, List.nil_append] at h1
    constructor
    · rw [getStatsSamples, h1, length_lastN]
      simp only [List.length_map, hL]
      rfl
    · rw [h1]
      rw [lastN, List.length_map, hL]
      show (List.map _ L).drop 10 = _
      rw [List.map_drop]

theorem history_bounded_fifo_witness :
    ((List.range 60).map (fun i => ((-59 : ℚ), i))).length = 60 ∧
    (∀ p ∈ (List.range 60).map (fun i => ((-59 : ℚ), i)),
       ¬(p.1 < SignalModels.BLE.minRssi ∨ SignalModels.BLE.maxRssi < p.1)) ∧
    (getStatsSamples (feedEstimator (DistanceEstimator.init "BLE")
        ((List.range 60).map (fun i => ((-59 : ℚ), i)))) = 50 ∧
     (feedEstimator (DistanceEstimator.init "BLE")
        ((List.range 60).map (fun i => ((-59 : ℚ), i)))).rawHistory =
       ((((List.range 60).map (fun i => ((-59 : ℚ), i))).drop 10).map
          (fun p => { rssi := p.1, timestamp := p.2 }))) := by
  have hlen : ((List.range 60).map (fun i => ((-59 : ℚ), i))).length = 60 := by simp
  have hin : ∀ p ∈ (List.range 60).map (fun i => ((-59 : ℚ), i)),
      ¬(p.1 < SignalModels.BLE.minRssi ∨ SignalModels.BLE.maxRssi < p.1) := by
    intro p hp
    simp only [List.mem_map] at hp
    obtain ⟨i, _, rfl⟩ := hp
    norm_num [SignalModels.BLE]
  exact ⟨hlen, hin, history_bounded_fifo.2.2 _ hlen hin⟩

theorem update_fst (s : KalmanState) (m : ℚ) :
    (s.update m).1 = s.estimate +
      ((s.errorCovariance + s.Q) / ((s.errorCovariance + s.Q) + s.R)) * (m - s.estimate) := rfl

theorem estimateDistance_distance_in_range (s : EstimatorState) (rssi : ℚ) (u : Bool)
    (t : ℕ) (h : ¬(rssi < s.model.minRssi ∨ s.model.maxRssi < rssi)) :
    (estimateDistance s rssi u t).1.distance =
      some (((round (((s.model.referenceDistance : ℝ) *
          (10 : ℝ) ^ ((((s.model.referenceRssi -
            (if u then s.kalmanFilter.update rssi else (rssi, s.kalmanFilter)).1) /
            (10 * s.model.pathLossExponent)) : ℚ) : ℝ)) * 100) : ℤ) : ℝ) / 100) := by
  unfold estimateDistance
  rw [if_neg h]

/-- C6: for two in-range RSSI values `a > b` read from the same estimator
state, the distance estimated for the stronger signal `a` is at most the
distance estimated for the weaker signal `b` (the hypotheses on `Q`, `R` and
the error covariance are the constructor's constants and the filter's
reachability invariant). -/
theorem estimateDistance_monotone (s : EstimatorState) (a b : ℚ) (u : Bool) (t : ℕ)
    (hQ : s.kalmanFilter.Q = 1/8) (hR : s.kalmanFilter.R = 4)
    (hP : 0 ≤ s.kalmanFilter.errorCovariance)
    (hn : 0 < s.model.pathLossExponent) (hd : 0 ≤ s.model.referenceDistance)
    (ha : ¬(a < s.model.minRssi ∨ s.model.maxRssi < a))
    (hb : ¬(b < s.model.minRssi ∨ s.model.maxRssi < b))
    (hab : b < a) :
    ((estimateDistance s a u t).1.distance).isSome = true ∧
    ((estimateDistance s a u t).1.distance).getD 0 ≤
      ((estimateDistance s b u t).1.distance).getD 0 := by
  rw [estimateDistance_distance_in_range s a u t ha,
    estimateDistance_distance_in_range s b u t hb]
  refine ⟨rfl, ?_⟩
  simp only [Option.getD_some]
  have hf : (if u then s.kalmanFilter.update b else (b, s.kalmanFilter)).1 ≤
      (if u then s.kalmanFilter.update a else (a, s.kalmanFilter)).1 := by
    cases u
    · simpa using le_of_lt hab
    · simp only [if_true]
      rw [update_fst, update_fst, hQ, hR]
      have hK : 0 ≤ (s.kalmanFilter.errorCovariance + 1/8) /
          ((s.kalmanFilter.errorCovariance + 1/8) + 4) := by
        apply div_nonneg <;> linarith
      nlinarith [mul_le_mul_of_nonneg_left (by linarith :
        b - s.kalmanFilter.estimate ≤ a - s.kalmanFilter.estimate) hK]
  have h10n : (0 : ℚ) < 10 * s.model.pathLossExponent := by positivity
  have he : (s.model.referenceRssi -
        (if u then s.kalmanFilter.update a else (a, s.kalmanFilter)).1) /
        (10 * s.model.pathLossExponent) ≤
      (s.model.referenceRssi -
        (if u then s.kalmanFilter.update b else (b, s.kalmanFilter)).1) /
        (10 * s.model.pathLossExponent) := by
    gcongr
  have hecast : ((((s.model.referenceRssi -
        (if u then s.kalmanFilter.update a else (a, s.kalmanFilter)).1) /
        (10 * s.model.pathLossExponent)) : ℚ) : ℝ) ≤
      (((s.model.referenceRssi -
        (if u then s.kalmanFilter.update b else (b, s.kalmanFilter)).1) /
        (10 * s.model.pathLossExponent)) : ℚ) := by
    exact_mod_cast he
  have hrpow := (Real.rpow_le_rpow_left_iff (by norm_num : (1:ℝ) < 10)).mpr hecast
  have hdist : (s.model.referenceDistance : ℝ) *
      (10:ℝ) ^ ((((s.model.referenceRssi -
        (if u then s.kalmanFilter.update a else (a, s.kalmanFilter)).1) /
        (10 * s.model.pathLossExponent)) : ℚ) : ℝ) ≤
      (s.model.referenceDistance : ℝ) *
      (10:ℝ) ^ ((((s.model.referenceRssi -
        (if u then s.kalmanFilter.update b else (b, s.kalmanFilter)).1) /
        (10 * s.model.pathLossExponent)) : ℚ) : ℝ) :=
    mul_le_mul_of_nonneg_left hrpow (by exact_mod_cast hd)
  have hround := round_le_round_of_le (mul_le_mul_of_nonneg_right hdist
    (by norm_num : (0:ℝ) ≤ 100))
  have hcast : ((round (((s.model.referenceDistance : ℝ) *
      (10:ℝ) ^ ((((s.model.referenceRssi -
        (if u then s.kalmanFilter.update a else (a, s.kalmanFilter)).1) /
        (10 * s.model.pathLossExponent)) : ℚ) : ℝ)) * 100) : ℤ) : ℝ) ≤
      ((round (((s.model.referenceDistance : ℝ) *
      (10:ℝ) ^ ((((s.model.referenceRssi -
        (if u then s.kalmanFilter.update b else (b, s.kalmanFilter)).1) /
        (10 * s.model.pathLossExponent)) : ℚ) : ℝ)) * 100) : ℤ) : ℝ) := by
    exact_mod_cast hround
  linarith

theorem estimateDistance_monotone_witness :
    (DistanceEstimator.init "BLE").kalmanFilter.Q = 1/8 ∧
    (DistanceEstimator.init "BLE").kalmanFilter.R = 4 ∧
    0 ≤ (DistanceEstimator.init "BLE").kalmanFilter.errorCovariance ∧
    0 < (DistanceEstimator.init "BLE").model.pathLossExponent ∧
    0 ≤ (DistanceEstimator.init "BLE").model.referenceDistance ∧
    ¬((-50 : ℚ) < (DistanceEstimator.init "BLE").model.minRssi ∨
      (DistanceEstimator.init "BLE").model.maxRssi < (-50 : ℚ)) ∧
    ¬((-60 : ℚ) < (DistanceEstimator.init "BLE").model.minRssi ∨
      (DistanceEstimator.init "BLE").model.maxRssi < (-60 : ℚ)) ∧
    (-60 : ℚ) < -50 ∧
    (((estimateDistance (DistanceEstimator.init "BLE") (-50) true 0).1.distance).isSome = true ∧
     ((estimateDistance (DistanceEstimator.init "BLE") (-50) true 0).1.distance).getD 0 ≤
       ((estimateDistance (DistanceEstimator.init "BLE") (-60) true 0).1.distance).getD 0) := by
  have hP : 0 ≤ (DistanceEstimator.init "BLE").kalmanFilter.errorCovariance := by
    rw [init_BLE_eq]
    norm_num [DistanceEstimator.initWithModel, KalmanFilter.init]
  have hn : 0 < (DistanceEstimator.init "BLE").model.pathLossExponent := by
    rw [init_BLE_eq]
    norm_num [DistanceEstimator.initWithModel, SignalModels.BLE]
  have hd : 0 ≤ (DistanceEstimator.init "BLE").model.referenceDistance := by
    rw [init_BLE_eq]
    norm_num [DistanceEstimator.initWithModel, SignalModels.BLE]
  have ha : ¬((-50 : ℚ) < (DistanceEstimator.init "BLE").model.minRssi ∨
      (DistanceEstimator.init "BLE").model.maxRssi < (-50 : ℚ)) := by
    rw [init_BLE_eq]
    norm_num [DistanceEstimator.initWithModel, SignalModels.BLE]
  have hb : ¬((-60 : ℚ) < (DistanceEstimator.init "BLE").model.minRssi ∨
      (DistanceEstimator.init "BLE").model.maxRssi < (-60 : ℚ)) := by
    rw [init_BLE_eq]
    norm_num [DistanceEstimator.initWithModel, SignalModels.BLE]
  exact ⟨rfl, rfl, hP, hn, hd, ha, hb, by norm_num,
    estimateDistance_monotone (DistanceEstimator.init "BLE") (-50) (-60) true 0 rfl rfl hP hn hd
      ha hb (by norm_num)⟩

theorem covSeq_succ (n : ℕ) : covSeq (n + 1) = covStep (covSeq n) := rfl

theorem rhoSeq_succ (n : ℕ) : rhoSeq (n + 1) = rhoSeq n * (1 - gainSeq n) := rfl

theorem kalmanConstantFeed_succ (m : ℚ) (n : ℕ) :
    kalmanConstantFeed m (n + 1) = ((kalmanConstantFeed m n).update m).2 := rfl

theorem kalmanConstantFeed_Q (m : ℚ) : ∀ n, (kalmanConstantFeed m n).Q = 1/8 := by
  intro n
  induction n with
  | zero => rfl
  | succ n ih => rw [kalmanConstantFeed_succ, update_Q, ih]

theorem kalmanConstantFeed_R (m : ℚ) : ∀ n, (kalmanConstantFeed m n).R = 4 := by
  intro n
  induction n with
  | zero => rfl
  | succ n ih => rw [kalmanConstantFeed_succ, update_R, ih]

theorem kalmanConstantFeed_cov (m : ℚ) : ∀ n, (kalmanConstantFeed m n).errorCovariance =
    covSeq n := by
  intro n
  induction n with
  | zero => rfl
  | succ n ih =>
    rw [kalmanConstantFeed_succ, update_cov, ih, kalmanConstantFeed_Q, kalmanConstantFeed_R,
      covSeq_succ, covStep]

theorem update_est (s : KalmanState) (m : ℚ) :
    ((s.update m).2).estimate = s.estimate +
      ((s.errorCovariance + s.Q) / ((s.errorCovariance + s.Q) + s.R)) * (m - s.estimate) := rfl

theorem kalmanConstantFeed_estimate (m : ℚ) :
    ∀ n, (kalmanConstantFeed m n).estimate - m = rhoSeq n * (-60 - m) := by
  intro n
  induction n with
  | zero =>
    show (-60 : ℚ) - m = 1 * (-60 - m)
    ring
  | succ n ih =>
    rw [kalmanConstantFeed_succ, update_est, kalmanConstantFeed_Q, kalmanConstantFeed_R,
      kalmanConstantFeed_cov, rhoSeq_succ]
    have : (kalmanConstantFeed m n).estimate +
        ((covSeq n + 1/8) / ((covSeq n + 1/8) + 4)) * (m - (kalmanConstantFeed m n).estimate) -
        m = (1 - gainSeq n) * ((kalmanConstantFeed m n).estimate - m) := by
      rw [gainSeq]
      ring
    rw [this, ih]
    ring

theorem covSeq_nonneg : ∀ n, 0 ≤ covSeq n := by
  intro n
  induction n with
  | zero => norm_num [covSeq]
  | succ n ih =>
    rw [covSeq_succ, covStep]
    have hx : (0 : ℚ) < covSeq n + 1/8 := by linarith
    have hden : (0 : ℚ) < (covSeq n + 1/8) + 4 := by linarith
    have hgain : (1 : ℚ) - (covSeq n + 1/8) / ((covSeq n + 1/8) + 4) =
        4 / ((covSeq n + 1/8) + 4) := by
      field_simp
    rw [hgain]
    positivity

theorem one_sub_gainSeq_bounds (n : ℕ) : 0 ≤ 1 - gainSeq n ∧ 1 - gainSeq n ≤ 1 := by
  have hP := covSeq_nonneg n
  have hx : (0 : ℚ) < covSeq n + 1/8 := by linarith
  have hden : (0 : ℚ) < (covSeq n + 1/8) + 4 := by linarith
  have h1 : gainSeq n ≤ 1 := by
    rw [gainSeq]
    rw [div_le_one hden]
    linarith
  have h0 : 0 ≤ gainSeq n := by
    rw [gainSeq]
    positivity
  exact ⟨by linarith, by linarith⟩

theorem rhoSeq_nonneg : ∀ n, 0 ≤ rhoSeq n := by
  intro n
  induction n with
  | zero => norm_num [rhoSeq]
  | succ n ih =>
    rw [rhoSeq_succ]
    exact mul_nonneg ih (one_sub_gainSeq_bounds n).1

theorem rhoSeq_antitone {n k : ℕ} (h : n ≤ k) : rhoSeq k ≤ rhoSeq n := by
  induction k with
  | zero =>
    rw [Nat.le_zero.mp h]
  | succ k ih =>
    rcases Nat.lt_or_ge n (k + 1) with hlt | hge
    · have hk := ih (Nat.lt_succ_iff.mp hlt)
      have step : rhoSeq (k + 1) ≤ rhoSeq k := by
        rw [rhoSeq_succ]
        exact mul_le_of_le_one_right (rhoSeq_nonneg k) (one_sub_gainSeq_bounds k).2
      linarith
    · have : n = k + 1 := le_antisymm h hge
      rw [this]

theorem covSeq_rhoSeq_ten :
    covSeq 1 = 36/41 ∧ covSeq 10 = 5354748737015076/8166684832004201 ∧
    rhoSeq 10 = 1125899906842624/8166684832004201 := by
  have c0 : covSeq 0 = 1 := rfl
  have r0 : rhoSeq 0 = 1 := rfl
  have c1 : covSeq 1 = 36/41 := by
    rw [show (1:ℕ) = 0 + 1 from rfl, covSeq_succ, c0]; norm_num [covStep]
  have r1 : rhoSeq 1 = 32/41 := by
    rw [show (1:ℕ) = 0 + 1 from rfl, rhoSeq_succ, r0]; norm_num [gainSeq, c0]
  have c2 : covSeq 2 = 1316/1641 := by
    rw [show (2:ℕ) = 1 + 1 from rfl, covSeq_succ, c1]; norm_num [covStep]
  have r2 : rhoSeq 2 = 1024/1641 := by
    rw [show (2:ℕ) = 1 + 1 from rfl, rhoSeq_succ, r1]; norm_num [gainSeq, c1]
  have c3 : covSeq 3 = 48676/64681 := by
    rw [show (3:ℕ) = 2 + 1 from rfl, covSeq_succ, c2]; norm_num [covStep]
  have r3 : rhoSeq 3 = 32768/64681 := by
    rw [show (3:ℕ) = 2 + 1 from rfl, rhoSeq_succ, r2]; norm_num [gainSeq, c2]
  have c4 : covSeq 4 = 1816356/2523881 := by
    rw [show (4:ℕ) = 3 + 1 from rfl, covSeq_succ, c3]; norm_num [covStep]
  have r4 : rhoSeq 4 = 1048576/2523881 := by
    rw [show (4:ℕ) = 3 + 1 from rfl, rhoSeq_succ, r3]; norm_num [gainSeq, c3]
  have c5 : covSeq 5 = 68218916/97818921 := by
    rw [show (5:ℕ) = 4 + 1 from rfl, covSeq_succ, c4]; norm_num [covStep]
  have r5 : rhoSeq 5 = 33554432/97818921 := by
    rw [show (5:ℕ) = 4 + 1 from rfl, rhoSeq_succ, r4]; norm_num [gainSeq, c4]
  have c6 : covSeq 6 = 2574280996/3773775721 := by
    rw [show (6:ℕ) = 5 + 1 from rfl, covSeq_succ, c5]; norm_num [covStep]
  have r6 : rhoSeq 6 = 1073741824/3773775721 := by
    rw [show (6:ℕ) = 5 + 1 from rfl, rhoSeq_succ, r5]; norm_num [gainSeq, c5]
  have c7 : covSeq 7 = 97472094756/145128846761 := by
    rw [show (7:ℕ) = 6 + 1 from rfl, covSeq_succ, c6]; norm_num [covStep]
  have r7 : rhoSeq 7 = 34359738368/145128846761 := by
    rw [show (7:ℕ) = 6 + 1 from rfl, rhoSeq_succ, r6]; norm_num [gainSeq, c6]
  have c8 : covSeq 8 = 3699622419236/5569028701161 := by
    rw [show (8:ℕ) = 7 + 1 from rfl, covSeq_succ, c7]; norm_num [covStep]
  have r8 : rhoSeq 8 = 1099511627776/5569028701161 := by
    rw [show (8:ℕ) = 7 + 1 from rfl, rhoSeq_succ, r7]; norm_num [gainSeq, c7]
  have c9 : covSeq 9 = 140664032220196/213374926492201 := by
    rw [show (9:ℕ) = 8 + 1 from rfl, covSeq_succ, c8]; norm_num [covStep]
  have r9 : rhoSeq 9 = 35184372088832/213374926492201 := by
    rw [show (9:ℕ) = 8 + 1 from rfl, rhoSeq_succ, r8]; norm_num [gainSeq, c8]
  have c10 : covSeq 10 = 5354748737015076/8166684832004201 := by
    rw [show (10:ℕ) = 9 + 1 from rfl, covSeq_succ, c9]; norm_num [covStep]
  have r10 : rhoSeq 10 = 1125899906842624/8166684832004201 := by
    rw [show (10:ℕ) = 9 + 1 from rfl, rhoSeq_succ, r9]; norm_num [gainSeq, c9]
  exact ⟨c1, c10, r10⟩

/-- C7 counterexample: at the constant measurement `m = -200`, ten updates of a
freshly constructed filter leave the estimate about 19.3 dBm away from `m`, so
"within 2 dBm of `m` for every constant measurement `m`" is false as stated. -/
theorem kalman_convergence_counterexample :
    2 < |(kalmanConstantFeed (-200) 10).estimate - (-200)| := by
  rw [kalmanConstantFeed_estimate (-200) 10, covSeq_rhoSeq_ten.2.2,
    show ((-60 : ℚ) - (-200)) = 140 from by norm_num,
    abs_of_nonneg (by norm_num : (0:ℚ) ≤ (1125899906842624/8166684832004201 : ℚ) * 140)]
  norm_num

/-- C7 (amended): the ten-step contraction factor of the fresh filter is
`ρ₁₀ = 1125899906842624/8166684832004201 ≈ 0.138`, so the "within 2 dBm"
bound holds for every constant measurement within `14` dBm of the initial
estimate `-60` (but not for arbitrary `m`); and `getConfidence()` after 10
updates is strictly greater than after 1 update, for every `m`. -/
theorem kalman_convergence (m : ℚ) (n : ℕ) (hm : |m - (-60)| ≤ 14) (hn : 10 ≤ n) :
    |(kalmanConstantFeed m n).estimate - m| ≤ 2 ∧
    (kalmanConstantFeed m 1).getConfidence < (kalmanConstantFeed m 10).getConfidence := by
  obtain ⟨c1, c10, r10⟩ := covSeq_rhoSeq_ten
  constructor
  · rw [kalmanConstantFeed_estimate m n, abs_mul, abs_of_nonneg (rhoSeq_nonneg n)]
    have h2 : rhoSeq n ≤ rhoSeq 10 := rhoSeq_antitone hn
    have h4 : |(-60 : ℚ) - m| ≤ 14 := by
      rw [abs_sub_comm]
      exact hm
    calc rhoSeq n * |(-60 : ℚ) - m| ≤ rhoSeq 10 * 14 := by
          apply mul_le_mul h2 h4 (abs_nonneg _)
          rw [r10]
          norm_num
      _ ≤ 2 := by rw [r10]; norm_num
  · unfold KalmanState.getConfidence
    rw [kalmanConstantFeed_cov, kalmanConstantFeed_cov, c1, c10]
    norm_num [min_def, max_def]

theorem kalman_convergence_witness :
    |(-50 : ℚ) - (-60)| ≤ 14 ∧ (10 : ℕ) ≤ 10 ∧
    (|(kalmanConstantFeed (-50) 10).estimate - (-50)| ≤ 2 ∧
     (kalmanConstantFeed (-50) 1).getConfidence < (kalmanConstantFeed (-50) 10).getConfidence) :=
  ⟨by norm_num, le_refl 10, kalman_convergence (-50) 10 (by norm_num) (le_refl 10)⟩

theorem logb_ten_two_gt : (3/10 : ℝ) < Real.logb 10 2 := by
  rw [Real.lt_logb_iff_rpow_lt (by norm_num) (by norm_num)]
  have h10 : ((10:ℝ) ^ ((3:ℝ)/10)) ^ (10:ℕ) = 1000 := by
    rw [← Real.rpow_natCast ((10:ℝ) ^ ((3:ℝ)/10)) 10, ← Real.rpow_mul (by norm_num : (0:ℝ) ≤ 10)]
    rw [show ((3:ℝ)/10) * ((10:ℕ):ℝ) = ((3:ℕ):ℝ) from by norm_num, Real.rpow_natCast]
    norm_num
  by_contra hc
  push_neg at hc
  have hle := pow_le_pow_left₀ (by norm_num : (0:ℝ) ≤ 2) hc 10
  rw [h10] at hle
  norm_num at hle

theorem logb_ten_two_lt : Real.logb 10 2 < 31/100 := by
  rw [Real.logb_lt_iff_lt_rpow (by norm_num) (by norm_num)]
  have h100 : ((10:ℝ) ^ ((31:ℝ)/100)) ^ (100:ℕ) = 10 ^ (31:ℕ) := by
    rw [← Real.rpow_natCast ((10:ℝ) ^ ((31:ℝ)/100)) 100,
      ← Real.rpow_mul (by norm_num : (0:ℝ) ≤ 10)]
    rw [show ((31:ℝ)/100) * ((100:ℕ):ℝ) = ((31:ℕ):ℝ) from by norm_num, Real.rpow_natCast]
  by_contra hc
  push_neg at hc
  have hle := pow_le_pow_left₀
    (Real.rpow_nonneg (by norm_num : (0:ℝ) ≤ 10) ((31:ℝ)/100)) hc 100
  rw [h100] at hle
  norm_num at hle

theorem calibrate_success (s : EstimatorState) (d : ℚ) (samples : List ℚ)
    (h5 : ¬(samples.length < 5)) : (calibrate s d samples).1 = true := by
  unfold calibrate
  rw [if_neg h5]

theorem calibrate_filter (s : EstimatorState) (d : ℚ) (samples : List ℚ)
    (h5 : ¬(samples.length < 5)) :
    (calibrate s d samples).2.kalmanFilter =
      s.kalmanFilter.reset (samples.sum / (samples.length : ℚ)) := by
  unfold calibrate
  rw [if_neg h5]

theorem calibrate_refRssi (s : EstimatorState) (d : ℚ) (samples : List ℚ)
    (h5 : ¬(samples.length < 5)) :
    (calibrate s d samples).2.model.referenceRssi =
      (((if |d - 1| < 1/10 then round (samples.sum / (samples.length : ℚ))
        else round (((samples.sum / (samples.length : ℚ) : ℚ) : ℝ) +
          10 * (s.model.pathLossExponent : ℝ) * Real.logb 10 (d : ℝ))) : ℤ) : ℚ) := by
  unfold calibrate
  rw [if_neg h5]

/-- C3 counterexample: calibrating at `knownDistance = 2` on a model with
`referenceDistance = 2` (so the claim's "within 0.1 m of the model's
referenceDistance" branch applies) with five samples of `-50` does NOT set
`referenceRssi = round(mean) = -50`: the source compares against the
hard-coded 1.0 m, takes the back-solving branch, and stores
`round(-50 + 10·2·log10 2) = -44`. -/
theorem calibrate_counterexample :
    |(2 : ℚ) - calibModelTwoMeters.referenceDistance| < 1/10 ∧
    ¬(([(-50 : ℚ), -50, -50, -50, -50] : List ℚ).length < 5) ∧
    ((round (([(-50 : ℚ), -50, -50, -50, -50] : List ℚ).sum /
        ((([(-50 : ℚ), -50, -50, -50, -50] : List ℚ).length : ℚ))) : ℤ) : ℚ) = -50 ∧
    (calibrate (DistanceEstimator.initWithModel calibModelTwoMeters) 2
        [-50, -50, -50, -50, -50]).2.model.referenceRssi = -44 := by
  refine ⟨by norm_num [calibModelTwoMeters], by norm_num, ?_, ?_⟩
  · have hmean : (([(-50 : ℚ), -50, -50, -50, -50] : List ℚ).sum /
        ((([(-50 : ℚ), -50, -50, -50, -50] : List ℚ).length : ℚ))) = -50 := by
      norm_num
    rw [hmean, round_eq_of_bounds (-50 : ℚ) (-50) (by norm_num) (by norm_num)]
    norm_num
  · rw [calibrate_refRssi _ _ _ (by norm_num), if_neg (by norm_num)]
    have hmodel : (DistanceEstimator.initWithModel calibModelTwoMeters).model.pathLossExponent
        = 2 := rfl
    have hmean : ((([(-50 : ℚ), -50, -50, -50, -50] : List ℚ).sum /
        ((([(-50 : ℚ), -50, -50, -50, -50] : List ℚ).length : ℚ)) : ℚ) : ℝ) = -50 := by
      norm_num
    rw [hmodel, hmean]
    have hr : round ((-50 : ℝ) + 10 * ((2 : ℚ) : ℝ) * Real.logb 10 ((2 : ℚ) : ℝ)) = -44 := by
      have h2 : ((2 : ℚ) : ℝ) = 2 := by norm_num
      rw [h2]
      refine round_eq_of_bounds _ _ ?_ ?_
      · have := logb_ten_two_gt
        push_cast
        linarith
      · have := logb_ten_two_lt
        push_cast
        linarith
    rw [hr]
    norm_num

/-- C3 (amended): `calibrate` with at least 5 samples always succeeds, resets
the filter to the sample mean, and sets `referenceRssi = round(mean)` exactly
when `knownDistance` is within 0.1 m of the hard-coded 1.0 m (NOT the model's
`referenceDistance`); otherwise it back-solves
`referenceRssi = round(mean + 10 · pathLossExponent · log10(knownDistance))`. -/
theorem calibrate_spec (s : EstimatorState) (d : ℚ) (samples : List ℚ)
    (h5 : 5 ≤ samples.length) :
    (calibrate s d samples).1 = true ∧
    (calibrate s d samples).2.kalmanFilter =
      s.kalmanFilter.reset (samples.sum / (samples.length : ℚ)) ∧
    (|d - 1| < 1/10 →
      (calibrate s d samples).2.model.referenceRssi =
        ((round (samples.sum / (samples.length : ℚ)) : ℤ) : ℚ)) ∧
    (¬(|d - 1| < 1/10) →
      (calibrate s d samples).2.model.referenceRssi =
        ((round (((samples.sum / (samples.length : ℚ) : ℚ) : ℝ) +
          10 * (s.model.pathLossExponent : ℝ) * Real.logb 10 (d : ℝ)) : ℤ) : ℚ)) := by
  have h5' : ¬(samples.length < 5) := by omega
  refine ⟨calibrate_success s d samples h5', calibrate_filter s d samples h5', ?_, ?_⟩
  · intro hd
    rw [calibrate_refRssi s d samples h5', if_pos hd]
  · intro hd
    rw [calibrate_refRssi s d samples h5', if_neg hd]

theorem calibrate_spec_witness :
    5 ≤ ([(-50 : ℚ), -51, -49, -50, -50] : List ℚ).length ∧
    ((calibrate (DistanceEstimator.init "BLE") 1 [-50, -51, -49, -50, -50]).1 = true ∧
     (calibrate (DistanceEstimator.init "BLE") 1 [-50, -51, -49, -50, -50]).2.kalmanFilter =
       (DistanceEstimator.init "BLE").kalmanFilter.reset
         (([(-50 : ℚ), -51, -49, -50, -50] : List ℚ).sum /
           ((([(-50 : ℚ), -51, -49, -50, -50] : List ℚ).length : ℚ))) ∧
     (|(1 : ℚ) - 1| < 1/10 →
       (calibrate (DistanceEstimator.init "BLE") 1
           [-50, -51, -49, -50, -50]).2.model.referenceRssi =
         ((round (([(-50 : ℚ), -51, -49, -50, -50] : List ℚ).sum /
           ((([(-50 : ℚ), -51, -49, -50, -50] : List ℚ).length : ℚ))) : ℤ) : ℚ)) ∧
     (¬(|(1 : ℚ) - 1| < 1/10) →
       (calibrate (DistanceEstimator.init "BLE") 1
           [-50, -51, -49, -50, -50]).2.model.referenceRssi =
         ((round (((([(-50 : ℚ), -51, -49, -50, -50] : List ℚ).sum /
           ((([(-50 : ℚ), -51, -49, -50, -50] : List ℚ).length : ℚ)) : ℚ) : ℝ) +
           10 * ((DistanceEstimator.init "BLE").model.pathLossExponent : ℝ) *
             Real.logb 10 ((1 : ℚ) : ℝ)) : ℤ) : ℚ))) :=
  ⟨by norm_num, calibrate_spec (DistanceEstimator.init "BLE") 1 [-50, -51, -49, -50, -50]
    (by norm_num)⟩

theorem addReading_snd (ms : MultiRadioState) (radioType : String) (rssi : ℚ) (now : ℕ) :
    (addReading ms radioType rssi now).2 = addReadingStep ms radioType rssi now := by
  unfold addReading addReadingStep
  cases ms.estimators.lookup radioType <;> simp [estimateDistance_snd]

theorem pushTrim_of_lt (h : List Reading) (x : Reading) (hh : h.length + 1 ≤ maxHistoryLength) :
    pushTrim h x = h ++ [x] := by
  unfold pushTrim
  rw [if_neg (by simp only [List.length_append, List.length_singleton]; omega)]

theorem fusedEntry_snd (now : ℕ) (k : String) (es : EstimatorState) :
    (fusedEntry now k es).2 =
      if 0 < getStatsSamples es then (estimateDistance es (statsFilteredRssi es) false now).2
      else es := by
  unfold fusedEntry
  by_cases hc : 0 < getStatsSamples es
  · rw [if_pos hc, if_pos hc]
    rcases hd : (estimateDistance es (statsFilteredRssi es) false now).1.distance with _ | d
    · simp only [hd]
    · simp only [hd]
  · rw [if_neg hc, if_neg hc]

theorem getFusedEstimate_estimators (ms : MultiRadioState) (now : ℕ) :
    (getFusedEstimate ms now).2.estimators =
      ms.estimators.map (fun kv => (kv.1, (fusedEntry now kv.1 kv.2).2)) := by
  simp only [getFusedEstimate]
  split <;> simp [List.map_map, Function.comp]

theorem fusedEntry_effect (now : ℕ) (k : String) (es : EstimatorState)
    (h1 : 0 < getStatsSamples es)
    (h2 : ¬(statsFilteredRssi es < es.model.minRssi ∨ es.model.maxRssi < statsFilteredRssi es))
    (h3 : getStatsSamples es < maxHistoryLength) :
    (fusedEntry now k es).2.rawHistory =
      es.rawHistory ++ [{ rssi := statsFilteredRssi es, timestamp := now }] := by
  rw [fusedEntry_snd, if_pos h1, estimateDistance_snd,
    estimateStep_rawHistory_in_range _ _ _ _ h2,
    pushTrim_of_lt _ _ (by unfold getStatsSamples at h3; omega)]

theorem c9state1_eq :
    c9state1 =
      { model := SignalModels.BLE,
        kalmanFilter := { Q := 1/8, R := 4, estimate := -59, errorCovariance := 36/41,
                          sampleCount := 1 },
        rawHistory := [{ rssi := -59, timestamp := 0 }] } := by
  unfold c9state1
  rw [init_BLE_eq]
  unfold estimateStep DistanceEstimator.initWithModel KalmanFilter.init
  rw [if_neg (by norm_num [SignalModels.BLE])]
  norm_num [KalmanState.update, SignalModels.BLE, maxHistoryLength]

theorem statsFiltered_c9state1 : statsFilteredRssi c9state1 = -59 := by
  rw [c9state1_eq]
  show ((round ((-59 : ℚ) * 10) : ℤ) : ℚ) / 10 = -59
  rw [round_eq_of_bounds ((-59 : ℚ) * 10) (-590) (by norm_num) (by norm_num)]
  norm_num

theorem c9state2_eq :
    c9state2 =
      { model := SignalModels.BLE,
        kalmanFilter := { Q := 1/8, R := 4, estimate := -59, errorCovariance := 36/41,
                          sampleCount := 1 },
        rawHistory := [{ rssi := -59, timestamp := 0 }, { rssi := -59, timestamp := 1 }] } := by
  unfold c9state2
  rw [fusedEntry_snd, if_pos (by rw [c9state1_eq]; norm_num [getStatsSamples])]
  rw [estimateDistance_snd, statsFiltered_c9state1, c9state1_eq]
  unfold estimateStep
  rw [if_neg (by norm_num [SignalModels.BLE])]
  norm_num [maxHistoryLength]

theorem round_div_hundred_eq (x : ℝ) (n : ℤ) (h1 : (n : ℝ) ≤ x + 1/2) (h2 : x + 1/2 < n + 1)
    (v : ℝ) (hv : ((n : ℤ) : ℝ) / 100 = v) : ((round x : ℤ) : ℝ) / 100 = v := by
  rw [round_eq_of_bounds x n h1 h2, hv]

theorem estimateDistance_confidence_in_range (s : EstimatorState) (rssi : ℚ) (u : Bool)
    (t : ℕ) (h : ¬(rssi < s.model.minRssi ∨ s.model.maxRssi < rssi)) :
    (estimateDistance s rssi u t).1.confidence =
      calculateConfidence
        { s with
          kalmanFilter := (if u then s.kalmanFilter.update rssi else (rssi, s.kalmanFilter)).2,
          rawHistory :=
            if maxHistoryLength < (s.rawHistory ++ [Reading.mk rssi t]).length
            then (s.rawHistory ++ [Reading.mk rssi t]).tail
            else s.rawHistory ++ [Reading.mk rssi t] }
        ((if u then s.kalmanFilter.update rssi else (rssi, s.kalmanFilter)).1)
        ((s.model.referenceDistance : ℝ) *
          (10 : ℝ) ^ ((((s.model.referenceRssi -
            (if u then s.kalmanFilter.update rssi else (rssi, s.kalmanFilter)).1) /
            (10 * s.model.pathLossExponent)) : ℚ) : ℝ)) := by
  unfold estimateDistance
  rw [if_neg h]

theorem c9_confidenceA : (estimateDistance c9state1 (-59) true 2).1.confidence = 63/100 := by
  rw [c9state1_eq, estimateDistance_confidence_in_range _ _ _ _ (by norm_num [SignalModels.BLE])]
  norm_num [calculateConfidence, calculateRssiStability, KalmanState.getConfidence,
    KalmanState.update, SignalModels.BLE, maxHistoryLength, min_def, max_def, Real.rpow_zero]
  exact round_div_hundred_eq _ 63 (by norm_num) (by norm_num) _ (by norm_num)

theorem c9_confidenceB : (estimateDistance c9state2 (-59) true 2).1.confidence = 80/100 := by
  rw [c9state2_eq, estimateDistance_confidence_in_range _ _ _ _ (by norm_num [SignalModels.BLE])]
  norm_num [calculateConfidence, calculateRssiStability, KalmanState.getConfidence,
    KalmanState.update, SignalModels.BLE, maxHistoryLength, min_def, max_def, Real.rpow_zero,
    Real.sqrt_zero]
  exact round_div_hundred_eq _ 80 (by norm_num) (by norm_num) _ (by norm_num)

/-- C9: `getFusedEstimate` is not a read-only query.  Its returned state maps
every estimator through the loop body `fusedEntry`; for an estimator with at
least one sample and an in-range (rounded) filtered RSSI, that body appends a
new reading carrying the current filtered RSSI and the call's fresh timestamp,
so `getStats().samples` grows by one (below the 50-entry cap); and on a
concrete reachable state the confidence reported by a subsequent identical
`estimateDistance` call differs because of the interleaved
`getFusedEstimate`. -/
theorem getFusedEstimate_frame_effect :
    (∀ (ms : MultiRadioState) (now : ℕ),
       (getFusedEstimate ms now).2.estimators =
         ms.estimators.map (fun kv => (kv.1, (fusedEntry now kv.1 kv.2).2))) ∧
    (∀ (now : ℕ) (k : String) (es : EstimatorState),
       0 < getStatsSamples es →
       ¬(statsFilteredRssi es < es.model.minRssi ∨ es.model.maxRssi < statsFilteredRssi es) →
       getStatsSamples es < maxHistoryLength →
       (fusedEntry now k es).2.rawHistory =
         es.rawHistory ++ [{ rssi := statsFilteredRssi es, timestamp := now }] ∧
       getStatsSamples (fusedEntry now k es).2 = getStatsSamples es + 1) ∧
    ((addReading ⟨[]⟩ "BLE" (-59) 0).2.estimators.lookup "BLE" = some c9state1 ∧
     (getFusedEstimate (addReading ⟨[]⟩ "BLE" (-59) 0).2 1).2.estimators.lookup "BLE" =
       some c9state2 ∧
     (estimateDistance c9state1 (-59) true 2).1.confidence ≠
       (estimateDistance c9state2 (-59) true 2).1.confidence) := by
  refine ⟨getFusedEstimate_estimators, ?_, ?_, ?_, ?_⟩
  · intro now k es h1 h2 h3
    have hh := fusedEntry_effect now k es h1 h2 h3
    refine ⟨hh, ?_⟩
    rw [getStatsSamples, hh, List.length_append, List.length_singleton]
    rfl
  · rw [addReading_snd]
    simp [addReadingStep, List.lookup, c9state1]
  · rw [getFusedEstimate_estimators, addReading_snd]
    simp [addReadingStep, List.lookup, c9state2, c9state1]
  · rw [c9_confidenceA, c9_confidenceB]
    norm_num

theorem getFusedEstimate_frame_effect_witness :
    (0 < getStatsSamples c9state1 ∧
     ¬(statsFilteredRssi c9state1 < c9state1.model.minRssi ∨
       c9state1.model.maxRssi < statsFilteredRssi c9state1) ∧
     getStatsSamples c9state1 < maxHistoryLength) ∧
    ((fusedEntry 7 "BLE" c9state1).2.rawHistory =
       c9state1.rawHistory ++ [{ rssi := statsFilteredRssi c9state1, timestamp := 7 }] ∧
     getStatsSamples (fusedEntry 7 "BLE" c9state1).2 = getStatsSamples c9state1 + 1) := by
  have h1 : 0 < getStatsSamples c9state1 := by
    rw [c9state1_eq]
    norm_num [getStatsSamples]
  have h2 : ¬(statsFilteredRssi c9state1 < c9state1.model.minRssi ∨
      c9state1.model.maxRssi < statsFilteredRssi c9state1) := by
    rw [statsFiltered_c9state1, c9state1_eq]
    norm_num [SignalModels.BLE]
  have h3 : getStatsSamples c9state1 < maxHistoryLength := by
    rw [c9state1_eq]
    norm_num [getStatsSamples, maxHistoryLength]
  exact ⟨⟨h1, h2, h3⟩, getFusedEstimate_frame_effect.2.1 7 "BLE" c9state1 h1 h2 h3⟩

theorem c4chain_eq :
    c4chain = ⟨[("BLE", c4ble), ("WIFI_2G", c4wifi2), ("WIFI_5G", c4wifi5),
                ("LORA", c4lora)]⟩ := by
  have h1 : (addReading ((⟨[]⟩ : MultiRadioState) : MultiRadioState) "BLE" (-59) 0).2 =
      (⟨[("BLE",
        ({ model := SignalModels.BLE,
           kalmanFilter := { Q := 1/8, R := 4, estimate := -59, errorCovariance := 36/41, sampleCount := 1 },
           rawHistory := [{ rssi := -59, timestamp := 0 }] } : EstimatorState))]⟩ : MultiRadioState) := by
    rw [addReading_snd]
    simp [addReadingStep, List.lookup, DistanceEstimator.init, DistanceEstimator.initWithModel,
      signalModelFor]
    norm_num [estimateStep, KalmanFilter.init, KalmanState.update, SignalModels.BLE,
      SignalModels.WIFI_2G, SignalModels.WIFI_5G, SignalModels.LORA, maxHistoryLength,
      c4ble, c4wifi2, c4wifi5, c4lora]
  have h2 : (addReading ((⟨[("BLE",
        ({ model := SignalModels.BLE,
           kalmanFilter := { Q := 1/8, R := 4, estimate := -59, errorCovariance := 36/41, sampleCount := 1 },
           rawHistory := [{ rssi := -59, timestamp := 0 }] } : EstimatorState))]⟩ : MultiRadioState) : MultiRadioState) "BLE" (-59) 0).2 =
      (⟨[("BLE",
        ({ model := SignalModels.BLE,
           kalmanFilter := { Q := 1/8, R := 4, estimate := -59, errorCovariance := 1316/1641, sampleCount := 2 },
           rawHistory := [{ rssi := -59, timestamp := 0 }, { rssi := -59, timestamp := 0 }] } : EstimatorState))]⟩ : MultiRadioState) := by
    rw [addReading_snd]
    simp [addReadingStep, List.lookup, DistanceEstimator.init, DistanceEstimator.initWithModel,
      signalModelFor]
    norm_num [estimateStep, KalmanFilter.init, KalmanState.update, SignalModels.BLE,
      SignalModels.WIFI_2G, SignalModels.WIFI_5G, SignalModels.LORA, maxHistoryLength,
      c4ble, c4wifi2, c4wifi5, c4lora]
  have h3 : (addReading ((⟨[("BLE",
        ({ model := SignalModels.BLE,
           kalmanFilter := { Q := 1/8, R := 4, estimate := -59, errorCovariance := 1316/1641, sampleCount := 2 },
           rawHistory := [{ rssi := -59, timestamp := 0 }, { rssi := -59, timestamp := 0 }] } : EstimatorState))]⟩ : MultiRadioState) : MultiRadioState) "BLE" (-59) 0).2 =
      (⟨[("BLE",
        c4ble)]⟩ : MultiRadioState) := by
    rw [addReading_snd]
    simp [addReadingStep, List.lookup, DistanceEstimator.init, DistanceEstimator.initWithModel,
      signalModelFor]
    norm_num [estimateStep, KalmanFilter.init, KalmanState.update, SignalModels.BLE,
      SignalModels.WIFI_2G, SignalModels.WIFI_5G, SignalModels.LORA, maxHistoryLength,
      c4ble, c4wifi2, c4wifi5, c4lora]
  have h4 : (addReading ((⟨[("BLE",
        c4ble)]⟩ : MultiRadioState) : MultiRadioState) "WIFI_2G" (-40) 0).2 =
      (⟨[("BLE",
        c4ble),
       ("WIFI_2G",
        ({ model := SignalModels.WIFI_2G,
           kalmanFilter := { Q := 1/8, R := 4, estimate := -40, errorCovariance := 36/41, sampleCount := 1 },
           rawHistory := [{ rssi := -40, timestamp := 0 }] } : EstimatorState))]⟩ : MultiRadioState) := by
    rw [addReading_snd]
    simp [addReadingStep, List.lookup, DistanceEstimator.init, DistanceEstimator.initWithModel,
      signalModelFor]
    norm_num [estimateStep, KalmanFilter.init, KalmanState.update, SignalModels.BLE,
      SignalModels.WIFI_2G, SignalModels.WIFI_5G, SignalModels.LORA, maxHistoryLength,
      c4ble, c4wifi2, c4wifi5, c4lora]
  have h5 : (addReading ((⟨[("BLE",
        c4ble),
       ("WIFI_2G",
        ({ model := SignalModels.WIFI_2G,
           kalmanFilter := { Q := 1/8, R := 4, estimate := -40, errorCovariance := 36/41, sampleCount := 1 },
           rawHistory := [{ rssi := -40, timestamp := 0 }] } : EstimatorState))]⟩ : MultiRadioState) : MultiRadioState) "WIFI_2G" (-40) 0).2 =
      (⟨[("BLE",
        c4ble),
       ("WIFI_2G",
        ({ model := SignalModels.WIFI_2G,
           kalmanFilter := { Q := 1/8, R := 4, estimate := -40, errorCovariance := 1316/1641, sampleCount := 2 },
           rawHistory := [{ rssi := -40, timestamp := 0 }, { rssi := -40, timestamp := 0 }] } : EstimatorState))]⟩ : MultiRadioState) := by
    rw [addReading_snd]
    simp [addReadingStep, List.lookup, DistanceEstimator.init, DistanceEstimator.initWithModel,
      signalModelFor]
    norm_num [estimateStep, KalmanFilter.init, KalmanState.update, SignalModels.BLE,
      SignalModels.WIFI_2G, SignalModels.WIFI_5G, SignalModels.LORA, maxHistoryLength,
      c4ble, c4wifi2, c4wifi5, c4lora]
  have h6 : (addReading ((⟨[("BLE",
        c4ble),
       ("WIFI_2G",
        ({ model := SignalModels.WIFI_2G,
           kalmanFilter := { Q := 1/8, R := 4, estimate := -40, errorCovariance := 1316/1641, sampleCount := 2 },
           rawHistory := [{ rssi := -40, timestamp := 0 }, { rssi := -40, timestamp := 0 }] } : EstimatorState))]⟩ : MultiRadioState) : MultiRadioState) "WIFI_2G" (-40) 0).2 =
      (⟨[("BLE",
        c4ble),
       ("WIFI_2G",
        c4wifi2)]⟩ : MultiRadioState) := by
    rw [addReading_snd]
    simp [addReadingStep, List.lookup, DistanceEstimator.init, DistanceEstimator.initWithModel,
      signalModelFor]
    norm_num [estimateStep, KalmanFilter.init, KalmanState.update, SignalModels.BLE,
      SignalModels.WIFI_2G, SignalModels.WIFI_5G, SignalModels.LORA, maxHistoryLength,
      c4ble, c4wifi2, c4wifi5, c4lora]
  have h7 : (addReading ((⟨[("BLE",
        c4ble),
       ("WIFI_2G",
        c4wifi2)]⟩ : MultiRadioState) : MultiRadioState) "WIFI_5G" (-42) 0).2 =
      (⟨[("BLE",
        c4ble),
       ("WIFI_2G",
        c4wifi2),
       ("WIFI_5G",
        ({ model := SignalModels.WIFI_5G,
           kalmanFilter := { Q := 1/8, R := 4, estimate := -42, errorCovariance := 36/41, sampleCount := 1 },
           rawHistory := [{ rssi := -42, timestamp := 0 }] } : EstimatorState))]⟩ : MultiRadioState) := by
    rw [addReading_snd]
    simp [addReadingStep, List.lookup, DistanceEstimator.init, DistanceEstimator.initWithModel,
      signalModelFor]
    norm_num [estimateStep, KalmanFilter.init, KalmanState.update, SignalModels.BLE,
      SignalModels.WIFI_2G, SignalModels.WIFI_5G, SignalModels.LORA, maxHistoryLength,
      c4ble, c4wifi2, c4wifi5, c4lora]
  have h8 : (addReading ((⟨[("BLE",
        c4ble),
       ("WIFI_2G",
        c4wifi2),
       ("WIFI_5G",
        ({ model := SignalModels.WIFI_5G,
           kalmanFilter := { Q := 1/8, R := 4, estimate := -42, errorCovariance := 36/41, sampleCount := 1 },
           rawHistory := [{ rssi := -42, timestamp := 0 }] } : EstimatorState))]⟩ : MultiRadioState) : MultiRadioState) "WIFI_5G" (-42) 0).2 =
      (⟨[("BLE",
        c4ble),
       ("WIFI_2G",
        c4wifi2),
       ("WIFI_5G",
        ({ model := SignalModels.WIFI_5G,
           kalmanFilter := { Q := 1/8, R := 4, estimate := -42, errorCovariance := 1316/1641, sampleCount := 2 },
           rawHistory := [{ rssi := -42, timestamp := 0 }, { rssi := -42, timestamp := 0 }] } : EstimatorState))]⟩ : MultiRadioState) := by
    rw [addReading_snd]
    simp [addReadingStep, List.lookup, DistanceEstimator.init, DistanceEstimator.initWithModel,
      signalModelFor]
    norm_num [estimateStep, KalmanFilter.init, KalmanState.update, SignalModels.BLE,
      SignalModels.WIFI_2G, SignalModels.WIFI_5G, SignalModels.LORA, maxHistoryLength,
      c4ble, c4wifi2, c4wifi5, c4lora]
  have h9 : (addReading ((⟨[("BLE",
        c4ble),
       ("WIFI_2G",
        c4wifi2),
       ("WIFI_5G",
        ({ model := SignalModels.WIFI_5G,
           kalmanFilter := { Q := 1/8, R := 4, estimate := -42, errorCovariance := 1316/1641, sampleCount := 2 },
           rawHistory := [{ rssi := -42, timestamp := 0 }, { rssi := -42, timestamp := 0 }] } : EstimatorState))]⟩ : MultiRadioState) : MultiRadioState) "WIFI_5G" (-42) 0).2 =
      (⟨[("BLE",
        c4ble),
       ("WIFI_2G",
        c4wifi2),
       ("WIFI_5G",
        c4wifi5)]⟩ : MultiRadioState) := by
    rw [addReading_snd]
    simp [addReadingStep, List.lookup, DistanceEstimator.init, DistanceEstimator.initWithModel,
      signalModelFor]
    norm_num [estimateStep, KalmanFilter.init, KalmanState.update, SignalModels.BLE,
      SignalModels.WIFI_2G, SignalModels.WIFI_5G, SignalModels.LORA, maxHistoryLength,
      c4ble, c4wifi2, c4wifi5, c4lora]
  have h10 : (addReading ((⟨[("BLE",
        c4ble),
       ("WIFI_2G",
        c4wifi2),
       ("WIFI_5G",
        c4wifi5)]⟩ : MultiRadioState) : MultiRadioState) "LORA" (-30) 0).2 =
      (⟨[("BLE",
        c4ble),
       ("WIFI_2G",
        c4wifi2),
       ("WIFI_5G",
        c4wifi5),
       ("LORA",
        ({ model := SignalModels.LORA,
           kalmanFilter := { Q := 1/8, R := 4, estimate := -30, errorCovariance := 36/41, sampleCount := 1 },
           rawHistory := [{ rssi := -30, timestamp := 0 }] } : EstimatorState))]⟩ : MultiRadioState) := by
    rw [addReading_snd]
    simp [addReadingStep, List.lookup, DistanceEstimator.init, DistanceEstimator.initWithModel,
      signalModelFor]
    norm_num [estimateStep, KalmanFilter.init, KalmanState.update, SignalModels.BLE,
      SignalModels.WIFI_2G, SignalModels.WIFI_5G, SignalModels.LORA, maxHistoryLength,
      c4ble, c4wifi2, c4wifi5, c4lora]
  have h11 : (addReading ((⟨[("BLE",
        c4ble),
       ("WIFI_2G",
        c4wifi2),
       ("WIFI_5G",
        c4wifi5),
       ("LORA",
        ({ model := SignalModels.LORA,
           kalmanFilter := { Q := 1/8, R := 4, estimate := -30, errorCovariance := 36/41, sampleCount := 1 },
           rawHistory := [{ rssi := -30, timestamp := 0 }] } : EstimatorState))]⟩ : MultiRadioState) : MultiRadioState) "LORA" (-30) 0).2 =
      (⟨[("BLE",
        c4ble),
       ("WIFI_2G",
        c4wifi2),
       ("WIFI_5G",
        c4wifi5),
       ("LORA",
        ({ model := SignalModels.LORA,
           kalmanFilter := { Q := 1/8, R := 4, estimate := -30, errorCovariance := 1316/1641, sampleCount := 2 },
           rawHistory := [{ rssi := -30, timestamp := 0 }, { rssi := -30, timestamp := 0 }] } : EstimatorState))]⟩ : MultiRadioState) := by
    rw [addReading_snd]
    simp [addReadingStep, List.lookup, DistanceEstimator.init, DistanceEstimator.initWithModel,
      signalModelFor]
    norm_num [estimateStep, KalmanFilter.init, KalmanState.update, SignalModels.BLE,
      SignalModels.WIFI_2G, SignalModels.WIFI_5G, SignalModels.LORA, maxHistoryLength,
      c4ble, c4wifi2, c4wifi5, c4lora]
  have h12 : (addReading ((⟨[("BLE",
        c4ble),
       ("WIFI_2G",
        c4wifi2),
       ("WIFI_5G",
        c4wifi5),
       ("LORA",
        ({ model := SignalModels.LORA,
           kalmanFilter := { Q := 1/8, R := 4, estimate := -30, errorCovariance := 1316/1641, sampleCount := 2 },
           rawHistory := [{ rssi := -30, timestamp := 0 }, { rssi := -30, timestamp := 0 }] } : EstimatorState))]⟩ : MultiRadioState) : MultiRadioState) "LORA" (-30) 0).2 =
      (⟨[("BLE",
        c4ble),
       ("WIFI_2G",
        c4wifi2),
       ("WIFI_5G",
        c4wifi5),
       ("LORA",
        c4lora)]⟩ : MultiRadioState) := by
    rw [addReading_snd]
    simp [addReadingStep, List.lookup, DistanceEstimator.init, DistanceEstimator.initWithModel,
      signalModelFor]
    norm_num [estimateStep, KalmanFilter.init, KalmanState.update, SignalModels.BLE,
      SignalModels.WIFI_2G, SignalModels.WIFI_5G, SignalModels.LORA, maxHistoryLength,
      c4ble, c4wifi2, c4wifi5, c4lora]
  unfold c4chain
  rw [h1, h2, h3, h4, h5, h6, h7, h8, h9, h10, h11, h12]

theorem round_hundred : round ((100 : ℝ)) = 100 :=
  round_eq_of_bounds _ _ (by norm_num) (by norm_num)

theorem c4statsB : statsFilteredRssi c4ble = -59 := by
  show ((round ((-59 : ℚ) * 10) : ℤ) : ℚ) / 10 = -59
  rw [round_eq_of_bounds ((-59 : ℚ) * 10) (-590) (by norm_num) (by norm_num)]
  norm_num

theorem c4distB : (estimateDistance c4ble (-59) false 0).1.distance = some 1 := by
  rw [estimateDistance_distance_in_range _ _ _ _ (by norm_num [c4ble, SignalModels.BLE])]
  norm_num [c4ble, SignalModels.BLE, Real.rpow_zero, round_hundred]

theorem c4confB : (estimateDistance c4ble (-59) false 0).1.confidence = 83/100 := by
  rw [estimateDistance_confidence_in_range _ _ _ _ (by norm_num [c4ble, SignalModels.BLE])]
  norm_num [calculateConfidence, calculateRssiStability, KalmanState.getConfidence, c4ble,
    SignalModels.BLE, maxHistoryLength, min_def, max_def, Real.rpow_zero, Real.sqrt_zero]
  exact round_div_hundred_eq _ 83 (by norm_num) (by norm_num) _ (by norm_num)

theorem c4fuseB : (fusedEntry 0 "BLE" c4ble).1 =
    some { radioType := "BLE", distance := 1, confidence := 83/100, weight := 1 } := by
  unfold fusedEntry
  rw [if_pos (by norm_num [getStatsSamples, c4ble])]
  simp only [c4statsB, c4distB, c4confB]
  simp [fusionWeights]

theorem c4statsW2 : statsFilteredRssi c4wifi2 = -40 := by
  show ((round ((-40 : ℚ) * 10) : ℤ) : ℚ) / 10 = -40
  rw [round_eq_of_bounds ((-40 : ℚ) * 10) (-400) (by norm_num) (by norm_num)]
  norm_num

theorem c4distW2 : (estimateDistance c4wifi2 (-40) false 0).1.distance = some 1 := by
  rw [estimateDistance_distance_in_range _ _ _ _ (by norm_num [c4wifi2, SignalModels.WIFI_2G])]
  norm_num [c4wifi2, SignalModels.WIFI_2G, Real.rpow_zero, round_hundred]

theorem c4confW2 : (estimateDistance c4wifi2 (-40) false 0).1.confidence = 83/100 := by
  rw [estimateDistance_confidence_in_range _ _ _ _ (by norm_num [c4wifi2, SignalModels.WIFI_2G])]
  norm_num [calculateConfidence, calculateRssiStability, KalmanState.getConfidence, c4wifi2,
    SignalModels.WIFI_2G, maxHistoryLength, min_def, max_def, Real.rpow_zero, Real.sqrt_zero]
  exact round_div_hundred_eq _ 83 (by norm_num) (by norm_num) _ (by norm_num)

theorem c4fuseW2 : (fusedEntry 0 "WIFI_2G" c4wifi2).1 =
    some { radioType := "WIFI_2G", distance := 1, confidence := 83/100, weight := 8/10 } := by
  unfold fusedEntry
  rw [if_pos (by norm_num [getStatsSamples, c4wifi2])]
  simp only [c4statsW2, c4distW2, c4confW2]
  simp [fusionWeights]

theorem c4statsW5 : statsFilteredRssi c4wifi5 = -42 := by
  show ((round ((-42 : ℚ) * 10) : ℤ) : ℚ) / 10 = -42
  rw [round_eq_of_bounds ((-42 : ℚ) * 10) (-420) (by norm_num) (by norm_num)]
  norm_num

theorem c4distW5 : (estimateDistance c4wifi5 (-42) false 0).1.distance = some 1 := by
  rw [estimateDistance_distance_in_range _ _ _ _ (by norm_num [c4wifi5, SignalModels.WIFI_5G])]
  norm_num [c4wifi5, SignalModels.WIFI_5G, Real.rpow_zero, round_hundred]

theorem c4confW5 : (estimateDistance c4wifi5 (-42) false 0).1.confidence = 83/100 := by
  rw [estimateDistance_confidence_in_range _ _ _ _ (by norm_num [c4wifi5, SignalModels.WIFI_5G])]
  norm_num [calculateConfidence, calculateRssiStability, KalmanState.getConfidence, c4wifi5,
    SignalModels.WIFI_5G, maxHistoryLength, min_def, max_def, Real.rpow_zero, Real.sqrt_zero]
  exact round_div_hundred_eq _ 83 (by norm_num) (by norm_num) _ (by norm_num)

theorem c4fuseW5 : (fusedEntry 0 "WIFI_5G" c4wifi5).1 =
    some { radioType := "WIFI_5G", distance := 1, confidence := 83/100, weight := 7/10 } := by
  unfold fusedEntry
  rw [if_pos (by norm_num [getStatsSamples, c4wifi5])]
  simp only [c4statsW5, c4distW5, c4confW5]
  simp [fusionWeights]

theorem c4statsL : statsFilteredRssi c4lora = -30 := by
  show ((round ((-30 : ℚ) * 10) : ℤ) : ℚ) / 10 = -30
  rw [round_eq_of_bounds ((-30 : ℚ) * 10) (-300) (by norm_num) (by norm_num)]
  norm_num

theorem c4distL : (estimateDistance c4lora (-30) false 0).1.distance = some 1 := by
  rw [estimateDistance_distance_in_range _ _ _ _ (by norm_num [c4lora, SignalModels.LORA])]
  norm_num [c4lora, SignalModels.LORA, Real.rpow_zero, round_hundred]

theorem c4confL : (estimateDistance c4lora (-30) false 0).1.confidence = 83/100 := by
  rw [estimateDistance_confidence_in_range _ _ _ _ (by norm_num [c4lora, SignalModels.LORA])]
  norm_num [calculateConfidence, calculateRssiStability, KalmanState.getConfidence, c4lora,
    SignalModels.LORA, maxHistoryLength, min_def, max_def, Real.rpow_zero, Real.sqrt_zero]
  exact round_div_hundred_eq _ 83 (by norm_num) (by norm_num) _ (by norm_num)

theorem c4fuseL : (fusedEntry 0 "LORA" c4lora).1 =
    some { radioType := "LORA", distance := 1, confidence := 83/100, weight := 5/10 } := by
  unfold fusedEntry
  rw [if_pos (by norm_num [getStatsSamples, c4lora])]
  simp only [c4statsL, c4distL, c4confL]
  simp [fusionWeights]

theorem c4_fused_eval :
    (getFusedEstimate c4chain 0).1.sources = 4 ∧
    (getFusedEstimate c4chain 0).1.confidence = 111/100 := by
  rw [c4chain_eq]
  constructor
  · simp only [getFusedEstimate]
    simp [c4fuseB, c4fuseW2, c4fuseW5, c4fuseL]
  · simp only [getFusedEstimate]
    simp [c4fuseB, c4fuseW2, c4fuseW5, c4fuseL]
    norm_num [max_def]
    exact round_div_hundred_eq _ 111 (by norm_num) (by norm_num) _ (by norm_num)

theorem getFused_confidence_formula (ms : MultiRadioState) (now : ℕ)
    (h : 1 ≤ (getFusedEstimate ms now).1.sources) :
    (getFusedEstimate ms now).1.confidence =
      ((round ((((getFusedEstimate ms now).1.breakdown.map FusedSource.confidence).foldl
          max 0 * ((getFusedEstimate ms now).1.sources : ℝ) / 3) * 100) : ℤ) : ℝ) / 100 := by
  simp only [getFusedEstimate] at h ⊢
  by_cases hc : (List.filterMap (fun x => x.2.1)
      (List.map (fun kv => (kv.1, fusedEntry now kv.1 kv.2)) ms.estimators)).length = 0
  · rw [if_pos hc] at h
    simp at h
  · rw [if_neg hc] at h ⊢

/-- C4: with at least one contributing source the fused confidence equals
`round2(max(confidence across sources) * sources / 3)` (the breakdown lists
exactly the contributing sources); and the formula is not clamped: on the
reachable state `c4chain` (each radio type fed its reference RSSI three times)
the fused estimate has 4 ≥ 3 sources and confidence `1.11 > 1`. -/
theorem fused_confidence_formula :
    (∀ (ms : MultiRadioState) (now : ℕ),
       1 ≤ (getFusedEstimate ms now).1.sources →
       (getFusedEstimate ms now).1.confidence =
         ((round ((((getFusedEstimate ms now).1.breakdown.map FusedSource.confidence).foldl
             max 0 * ((getFusedEstimate ms now).1.sources : ℝ) / 3) * 100) : ℤ) : ℝ) / 100) ∧
    (3 ≤ (getFusedEstimate c4chain 0).1.sources ∧
     (getFusedEstimate c4chain 0).1.sources = 4 ∧
     1 < (getFusedEstimate c4chain 0).1.confidence) := by
  refine ⟨getFused_confidence_formula, ?_, c4_fused_eval.1, ?_⟩
  · rw [c4_fused_eval.1]
    norm_num
  · rw [c4_fused_eval.2]
    norm_num

theorem fused_confidence_formula_witness :
    1 ≤ (getFusedEstimate c4chain 0).1.sources ∧
    (getFusedEstimate c4chain 0).1.confidence =
      ((round ((((getFusedEstimate c4chain 0).1.breakdown.map FusedSource.confidence).foldl
          max 0 * ((getFusedEstimate c4chain 0).1.sources : ℝ) / 3) * 100) : ℤ) : ℝ) / 100 := by
  have h : 1 ≤ (getFusedEstimate c4chain 0).1.sources := by
    rw [c4_fused_eval.1]
    norm_num
  exact ⟨h, fused_confidence_formula.1 c4chain 0 h⟩

end DistanceEstimation
